import Mathlib

/-!
# Verification of the redbus-figma-scraper extraction and projection pipeline

Shallow embedding of the repository's data-extraction code paths:
* `src/vercel-backend/lib/direct-api.ts` (Direct-API client and field normalizer),
* `src/vercel-backend/lib/scraper.ts` (auto-mode strategy fallback chain),
* `src/figma-plugin/src/utils/layer-parser.ts` (layer-name grammar),
* `src/figma-plugin/src/types/messages.ts` (frame indexing and record projection).

JavaScript runtime values are modelled by `JValue` (numbers as rationals; the
records handled by these claims carry only integral numbers, and no claim
depends on IEEE-754 rounding).  JavaScript exceptions are modelled by
`Except JSError`; an operation that can raise a `TypeError` at runtime returns
in that monad.  Network and browser effects are modelled by explicit outcome
oracles passed to the embedded functions.
-/

/-- A JavaScript exception: its `name` (`"Error"`, `"TypeError"`, …) and message. -/
structure JSError where
  name : String
  message : String
deriving DecidableEq, Repr

/-- JSON-like JavaScript runtime value.  `undef` is JavaScript `undefined`
(distinct from `null`); numbers are rationals. -/
inductive JValue where
  | undef
  | null
  | bool (b : Bool)
  | num (q : ℚ)
  | str (s : String)
  | arr (xs : List JValue)
  | obj (fields : List (String × JValue))

namespace JValue

/-- JavaScript truthiness (`NaN` is not representable here; every `num` is a
finite rational, truthy iff non-zero). -/
def truthy : JValue → Bool
  | undef => false
  | null => false
  | bool b => b
  | num q => q != 0
  | str s => s != ""
  | arr _ => true
  | obj _ => true

/-- JavaScript `a || b`: the left operand when truthy, else the right. -/
def jsOr (a b : JValue) : JValue :=
  if a.truthy then a else b

/-- JavaScript `a ?? b`: the left operand unless it is `null`/`undefined`. -/
def jsNullish (a b : JValue) : JValue :=
  match a with
  | undef => b
  | null => b
  | v => v

/-- JavaScript `typeof`. -/
def typeOf : JValue → String
  | undef => "undefined"
  | null => "object"
  | bool _ => "boolean"
  | num _ => "number"
  | str _ => "string"
  | arr _ => "object"
  | obj _ => "object"

/-- Property access `v.k`: throws a `TypeError` on `null`/`undefined`,
yields `undefined` on primitives and arrays, looks the key up on objects. -/
def getE (v : JValue) (k : String) : Except JSError JValue :=
  match v with
  | undef => .error ⟨"TypeError", "Cannot read properties of undefined"⟩
  | null => .error ⟨"TypeError", "Cannot read properties of null"⟩
  | obj fields => .ok (((fields.find? (·.1 == k)).map (·.2)).getD undef)
  | _ => .ok undef

/-- Optional chaining `v?.k`: `undefined` on `null`/`undefined`, otherwise
plain property access. -/
def getOpt (v : JValue) (k : String) : JValue :=
  match v with
  | undef => undef
  | null => undef
  | obj fields => ((fields.find? (·.1 == k)).map (·.2)).getD undef
  | _ => undef

/-- Array index access `v[i]`: throws on `null`/`undefined`; on arrays the
element or `undefined` past the end; on strings the one-character string;
`undefined` on other primitives. -/
def indexE (v : JValue) (i : ℕ) : Except JSError JValue :=
  match v with
  | undef => .error ⟨"TypeError", "Cannot read properties of undefined"⟩
  | null => .error ⟨"TypeError", "Cannot read properties of null"⟩
  | arr xs => .ok ((xs.get? i).getD undef)
  | str s => .ok (((s.toList.get? i).map (fun c => str (String.mk [c]))).getD undef)
  | _ => .ok undef

end JValue

/-! ## JavaScript string and number conversions -/

/-- Digit characters to the natural number they denote (base 10). -/
def digitsToNat (cs : List Char) : ℕ :=
  cs.foldl (fun a c => 10 * a + (c.toNat - 48)) 0

/-- `String.prototype.padStart(n, c)`. -/
def padStart (s : String) (n : ℕ) (c : Char) : String :=
  if s.length ≥ n then s else String.mk (List.replicate (n - s.length) c) ++ s

/-- JavaScript `String.prototype.trim` (structural, so it evaluates in the
kernel; JS trims the same whitespace on these inputs). -/
def jsTrim (s : String) : String :=
  String.mk (((s.toList.dropWhile Char.isWhitespace).reverse.dropWhile
    Char.isWhitespace).reverse)

/-- JavaScript `String.prototype.toLowerCase` (ASCII, per-character). -/
def jsToLower (s : String) : String :=
  String.mk (s.toList.map Char.toLower)

/-- Indian-digit grouping used by `Number.prototype.toLocaleString('en-IN')`:
a final group of three digits, then groups of two.  Input: reversed digit
characters; `k` counts the spots left in the current group. -/
def igroup : List Char → ℕ → List Char
  | [], _ => []
  | c :: cs, 0 => ',' :: c :: igroup cs 1
  | c :: cs, Nat.succ k => c :: igroup cs k

/-- Group a decimal digit string the en-IN way (`1234567` ↦ `12,34,567`). -/
def groupIndian (s : String) : String :=
  String.mk ((igroup s.toList.reverse 3).reverse)

/-- JS number-to-string.  The records in this development carry only integral
numbers; a non-integral rational (unreachable here) is rendered as an exact
decimal when its denominator divides a power of ten, else as `num/den`. -/
def numToString (q : ℚ) : String :=
  if q.den = 1 then toString q.num
  else
    let sign := if q < 0 then "-" else ""
    let n := q.num.natAbs
    let d := q.den
    match (List.range 10).find? (fun k => d ∣ 10 ^ k) with
    | some k =>
        let scaled := n * 10 ^ k / d
        sign ++ toString (scaled / 10 ^ k) ++ "." ++
          padStart (toString (scaled % 10 ^ k)) k '0'
    | none => sign ++ toString n ++ "/" ++ toString d

/-- `Number.prototype.toLocaleString('en-IN')` for the integral numbers this
code formats (prices); non-integral fallback mirrors `numToString`. -/
def toLocaleStringEnIN (q : ℚ) : String :=
  if q.den = 1 then
    (if q.num < 0 then "-" else "") ++ groupIndian (toString q.num.natAbs)
  else numToString q

namespace JValue

mutual

/-- JavaScript `String(v)` / `v.toString()`.  Array elements are joined with
commas, with `null`/`undefined` elements rendering as the empty string. -/
def jsToString : JValue → String
  | undef => "undefined"
  | null => "null"
  | bool b => if b then "true" else "false"
  | num q => numToString q
  | str s => s
  | arr xs => joinArr xs
  | obj _ => "[object Object]"
  termination_by structural v => v

/-- Array.prototype.toString: join with `","`; `null`/`undefined` elements
render as the empty string. -/
def joinArr : List JValue → String
  | [] => ""
  | [undef] => ""
  | [null] => ""
  | [x] => jsToString x
  | undef :: y :: rest => "," ++ joinArr (y :: rest)
  | null :: y :: rest => "," ++ joinArr (y :: rest)
  | x :: y :: rest => jsToString x ++ "," ++ joinArr (y :: rest)
  termination_by structural l => l

end

end JValue

/-- JavaScript `Number("...")` on a trimmed string: empty means `0`; an
optional sign, then decimal digits with an optional fraction part.  `none`
models `NaN`.  (Hex/exponent literals never occur in this code's inputs.) -/
def parseJSNumberCore (cs : List Char) : Option ℚ :=
  let core : List Char → Option ℚ := fun ds =>
    let (ip, rest) := ds.span Char.isDigit
    match rest with
    | [] => if ip.isEmpty then none else some (digitsToNat ip)
    | '.' :: rest2 =>
        let (fp, rest3) := rest2.span Char.isDigit
        if rest3.isEmpty && (!ip.isEmpty || !fp.isEmpty) then
          some ((digitsToNat ip : ℚ) + (digitsToNat fp : ℚ) / 10 ^ fp.length)
        else none
    | _ => none
  match cs with
  | [] => some 0
  | '-' :: ds => (core ds).map (fun q => -q)
  | '+' :: ds => core ds
  | ds => core ds

/-- JavaScript `Number(s)` for a string. -/
def parseJSNumber (s : String) : Option ℚ :=
  parseJSNumberCore (jsTrim s).toList

namespace JValue

/-- JavaScript numeric coercion `Number(v)`; `none` models `NaN`. -/
def jsToNumber : JValue → Option ℚ
  | undef => none
  | null => some 0
  | bool b => some (if b then 1 else 0)
  | num q => some q
  | str s => parseJSNumber s
  | arr xs => parseJSNumber (jsToString (arr xs))
  | obj _ => none

/-- JavaScript `a > b`: string/string compares lexicographically, otherwise
both operands are coerced to numbers (`NaN` comparisons are false). -/
def jsGT (a b : JValue) : Bool :=
  match a, b with
  | str x, str y => decide (y < x)
  | _, _ =>
      match a.jsToNumber, b.jsToNumber with
      | some x, some y => decide (y < x)
      | _, _ => false

/-- Strict equality `v === "s"` against a string literal. -/
def strictEqStr (v : JValue) (s : String) : Bool :=
  match v with
  | str t => t == s
  | _ => false

/-- `String.prototype.includes` as used on lower-cased bus types. -/
def strIncludes (s pat : String) : Bool :=
  decide (pat.toList <:+: s.toList)

/-- `v.toLocaleString('en-IN')`: throws on `null`/`undefined`; numbers use
Indian grouping; any other value renders like `toString`. -/
def jsToLocaleStringEnIN (v : JValue) : Except JSError String :=
  match v with
  | undef => .error ⟨"TypeError", "Cannot read properties of undefined"⟩
  | null => .error ⟨"TypeError", "Cannot read properties of null"⟩
  | num q => .ok (toLocaleStringEnIN q)
  | w => .ok (jsToString w)

end JValue

/-! ## Regex scanners

Each regex the source uses is embedded as a deterministic scanner that tries
every start position left to right, exactly as an unanchored JS regex does.
-/

/-- First match of `/(\d{2}):(\d{2})/`: two digits, a colon, two digits. -/
def findHHMM : List Char → Option (ℕ × ℕ)
  | [] => none
  | c1 :: rest =>
      match rest with
      | c2 :: c3 :: c4 :: c5 :: _ =>
          if c1.isDigit && c2.isDigit && c3 == ':' && c4.isDigit && c5.isDigit then
            some (digitsToNat [c1, c2], digitsToNat [c4, c5])
          else findHHMM rest
      | _ => none

/-- First match of `/@\[(\d+)\]/` (frame-ordinal grammar), as the captured
number. -/
def findFrameIndex : List Char → Option ℕ
  | [] => none
  | '@' :: rest =>
      (match rest with
       | '[' :: rest2 =>
           (let (ds, rest3) := rest2.span Char.isDigit
            match ds, rest3 with
            | _ :: _, ']' :: _ => some (digitsToNat ds)
            | _, _ => findFrameIndex rest)
       | _ => findFrameIndex rest)
  | _ :: rest => findFrameIndex rest

/-- First match of `/@\{([^}]+)\}/` (field-name grammar), as the captured
selector characters. -/
def findFieldSel : List Char → Option (List Char)
  | [] => none
  | '@' :: rest =>
      (match rest with
       | '\x7b' :: rest2 =>
           (let (sel, rest3) := rest2.span (fun c => c != '\x7d')
            match sel, rest3 with
            | _ :: _, '\x7d' :: _ => some sel
            | _, _ => findFieldSel rest)
       | _ => findFieldSel rest)
  | _ :: rest => findFieldSel rest

/-- Word characters `[a-zA-Z0-9_]` of the modifier capture group. -/
def isWordChar (c : Char) : Bool :=
  c.isAlpha || c.isDigit || c == '_'

/-- The optional suffix `(?:\.([a-zA-Z0-9_]+)(?:\[(\d+)\]|\(([^)]+)\))?)?` of
the layer-name regex, applied right after the closing brace: returns the
captured (modifier, bracket index digits, parenthesised argument). -/
def parseModifierSuffix (cs : List Char) :
    Option (List Char) × Option (List Char) × Option (List Char) :=
  match cs with
  | '.' :: cs2 =>
      (let (md, cs3) := cs2.span isWordChar
       match md with
       | [] => (none, none, none)
       | _ :: _ =>
         match cs3 with
         | '[' :: cs4 =>
             (let (ds, cs5) := cs4.span Char.isDigit
              match ds, cs5 with
              | _ :: _, ']' :: _ => (some md, some ds, none)
              | _, _ => (some md, none, none))
         | '(' :: cs4 =>
             (let (ar, cs5) := cs4.span (fun c => c != ')')
              match ar, cs5 with
              | _ :: _, ')' :: _ => (some md, none, some ar)
              | _, _ => (some md, none, none))
         | _ => (some md, none, none))
  | _ => (none, none, none)

/-- First match of the full layer-name regex
`/@\{([^}]+)\}(?:\.([a-zA-Z0-9_]+)(?:\[(\d+)\]|\(([^)]+)\))?)?/`:
the captured (selector, modifier, index digits, argument). -/
def findLayerMatch :
    List Char → Option (List Char × Option (List Char) × Option (List Char) × Option (List Char))
  | [] => none
  | '@' :: rest =>
      (match rest with
       | '\x7b' :: rest2 =>
           (let (sel, rest3) := rest2.span (fun c => c != '\x7d')
            match sel, rest3 with
            | _ :: _, '\x7d' :: after =>
                let (md, ix, ar) := parseModifierSuffix after
                some (sel, md, ix, ar)
            | _, _ => findLayerMatch rest)
       | _ => findLayerMatch rest)
  | _ :: rest => findLayerMatch rest

/-! ## `src/figma-plugin/src/utils/layer-parser.ts` -/

/-- `ScraperSelector` from `layer-parser.ts` (absent optional properties are
`none`; the source's `attribute` property is named `attr` here because
`attribute` is reserved in Lean). -/
structure ScraperSelector where
  selector : String
  modifier : Option String
  attr : Option String
  groupIndex : Option ℕ
deriving DecidableEq, Repr

/-- `parseLayerName` from `layer-parser.ts`: decode a layer display name into
a selector descriptor, or `none` when the name carries no `@{...}` pattern. -/
def parseLayerName (name : String) : Option ScraperSelector :=
  match findLayerMatch name.toList with
  | none => none
  | some (sel, md, ix, ar) =>
      let modifier := md.map String.mk
      some
        { selector := jsTrim (String.mk sel)
          modifier := modifier
          attr := ar.map String.mk
          groupIndex :=
            if ix.isSome && modifier == some "group" then
              ix.map digitsToNat
            else none }

/-- `parseFieldName` from `messages.ts`: first `@{...}` capture, untrimmed. -/
def parseFieldName (name : String) : Option String :=
  (findFieldSel name.toList).map String.mk

/-- `parseFrameIndex` from `messages.ts`: the `@[N]` frame ordinal. -/
def parseFrameIndex (name : String) : Option ℕ :=
  findFrameIndex name.toList

/-! ## `src/vercel-backend/lib/direct-api.ts` -/

/-- The `{ hours, minutes }` record produced by `parseDateTime`. -/
structure TimeHM where
  hours : ℤ
  minutes : ℤ
deriving DecidableEq, Repr

/-- `parseDateTime`: a falsy argument gives midnight; a string is searched for
its first `HH:MM`; a truthy non-string has no `.match` method, so the call
throws exactly as in JavaScript. -/
def parseDateTime (dateStr : JValue) : Except JSError TimeHM :=
  if !dateStr.truthy then .ok ⟨0, 0⟩
  else
    match dateStr with
    | .str s =>
        match findHHMM s.toList with
        | some (h, m) => .ok ⟨h, m⟩
        | none => .ok ⟨0, 0⟩
    | _ => .error ⟨"TypeError", "dateStr.match is not a function"⟩

/-- `calculateDurationMinutes`: minutes between two wall-clock times, adding
24 h when the raw arrival precedes the departure. -/
def calculateDurationMinutes (dep arr : TimeHM) : ℤ :=
  let depMins := dep.hours * 60 + dep.minutes
  let arrMins := arr.hours * 60 + arr.minutes
  let arrMins2 := if arrMins < depMins then arrMins + 24 * 60 else arrMins
  arrMins2 - depMins

/-- `Math.round`: half rounds up (toward `+∞`). -/
def jsRound (q : ℚ) : ℤ :=
  ⌊q + 1 / 2⌋

/-- `formatDuration`.  Defined on `JValue` because `transformBusData` passes
it `bus.journeyDurationMin || computed`, which at runtime may be any truthy
field value; a non-numeric one renders through JavaScript `NaN` arithmetic. -/
def formatDuration (minutes : JValue) : String :=
  if !minutes.truthy then ""
  else
    match minutes.jsToNumber with
    | some q =>
        if q ≤ 0 then ""
        else
          numToString ((⌊q / 60⌋ : ℤ) : ℚ) ++ "h " ++
            numToString (q - 60 * ((⌊q / 60⌋ : ℤ) : ℚ)) ++ "m"
    | none => "NaNh NaNm"

/-- `formatTime`: zero-padded `"HH:MM"`. -/
def formatTime (time : TimeHM) : String :=
  padStart (toString time.hours) 2 '0' ++ ":" ++ padStart (toString time.minutes) 2 '0'

/-- The `amenityMap[k.toLowerCase()] || k` dictionary lookup of
`extractAmenities`. -/
def amenityMapLookup (k : String) : String :=
  let lk := jsToLower k
  if lk == "wifi" then "WiFi"
  else if lk == "charging" then "Charging Point"
  else if lk == "water" then "Water Bottle"
  else if lk == "blanket" then "Blanket"
  else if lk == "tv" then "TV"
  else if lk == "ac" then "A/C"
  else if lk == "reading_light" then "Reading Light"
  else if lk == "track" then "Live Tracking"
  else k

/-- Strict equality `v === true`. -/
def JValue.strictEqTrue : JValue → Bool
  | .bool true => true
  | _ => false

/-- `extractAmenities` (direct-api version): arrays map each entry to itself
(strings) or `a.name || a.amenity || a.title || ''` and drop falsy results;
boolean-flag objects map `true` flags through the fixed dictionary; any other
truthy primitive yields `[]`. -/
def extractAmenities (amenities : JValue) : Except JSError JValue := do
  if !amenities.truthy then return .arr []
  match amenities with
  | .arr xs => do
      let mapped ← xs.mapM (fun a => do
        if a.typeOf == "string" then pure a
        else do
          let n ← a.getE "name"
          let am ← a.getE "amenity"
          let t ← a.getE "title"
          pure (n.jsOr (am.jsOr (t.jsOr (.str "")))))
      return .arr (mapped.filter (·.truthy))
  | .obj fields =>
      return .arr ((fields.filter (fun p => p.2.strictEqTrue)).map
        (fun p => .str (amenityMapLookup p.1)))
  | _ => return .arr []

/-- Array index on a value that is never nullish at its use sites (such as
`fareList`, which is `bus.fareList || []`). -/
def JValue.indexT : JValue → ℕ → JValue
  | .arr xs, i => (xs.get? i).getD .undef
  | .str s, i => ((s.toList.get? i).map (fun c => .str (String.mk [c]))).getD .undef
  | _, _ => JValue.undef

/-- The canonical `BusResult` record of `direct-api.ts`.  Every property holds
the JavaScript value the source stores there (fields that the code builds with
template literals or `String(...)` are always strings at runtime and are
wrapped as `.str`). -/
structure BusResult where
  id : JValue
  operator : JValue
  operatorId : JValue
  serviceName : JValue
  busType : JValue
  isAc : JValue
  isSleeper : JValue
  isSeater : JValue
  isElectricVehicle : JValue
  departureTime : JValue
  arrivalTime : JValue
  duration : JValue
  durationMinutes : JValue
  price : JValue
  priceFormatted : JValue
  originalPrice : JValue
  originalPriceFormatted : JValue
  discount : JValue
  rating : JValue
  numberOfReviews : JValue
  seatsAvailable : JValue
  totalSeats : JValue
  singleSeats : JValue
  windowSeats : JValue
  route : JValue
  viaRoute : JValue
  boardingPoint : JValue
  droppingPoint : JValue
  boardingPoints : JValue
  droppingPoints : JValue
  amenities : JValue
  tags : JValue
  isPrimo : JValue
  isLiveTracking : JValue
  hasFreeDateChange : JValue
  offerTag : JValue
  specialMessage : JValue
  cancellationPolicy : JValue
  isSponsored : JValue

/-- The fare/price block of `transformBusData` (its `price`, `originalPrice`
and `discountPercent` constants).  `discountPercent` is `none` when the
JavaScript computation would be `NaN`.  (`price / originalPrice` with a zero
`originalPrice` would be an infinity in JavaScript; it is unreachable under
the guard `originalPrice > price` for the non-negative prices these records
carry.) -/
structure Pricing where
  price : JValue
  originalPrice : JValue
  discountPercent : Option ℤ

/-- Lines 245–251 of `direct-api.ts`: extract `price` from the fare list (or
explicit fare fields), take `originalPrice` from the second fare-list element,
and compute the rounded discount percentage under the `originalPrice > price`
guard. -/
def busPricing (bus : JValue) : Except JSError Pricing := do
  let fareList := (← bus.getE "fareList").jsOr (.arr [])
  let f0 := fareList.indexT 0
  let price ←
    if f0.typeOf == "number" then pure f0
    else do
      let busFare ← bus.getE "fare"
      let busBaseFare ← bus.getE "baseFare"
      pure ((f0.getOpt "baseFare").jsOr ((f0.getOpt "fare").jsOr
        (busFare.jsOr (busBaseFare.jsOr (.num 0)))))
  let originalPrice := (fareList.indexT 1).jsOr ((fareList.indexT 0).jsOr price)
  let discountPercent : Option ℤ :=
    if originalPrice.jsGT price then
      match price.jsToNumber, originalPrice.jsToNumber with
      | some p, some o => some (jsRound ((1 - p / o) * 100))
      | _, _ => none
    else some 0
  return ⟨price, originalPrice, discountPercent⟩

/-- The `.slice(0, n)` call: works on arrays and strings, throws elsewhere. -/
def jsSlice (v : JValue) (n : ℕ) : Except JSError JValue :=
  match v with
  | .arr xs => .ok (.arr (xs.take n))
  | .str s => .ok (.str (String.mk (s.toList.take n)))
  | _ => .error ⟨"TypeError", "slice is not a function"⟩

/-- The boarding/dropping-point pipeline of `transformBusData`:
`pts.slice(0, 5).map(p => p.name || p.location || p.<alias> || String(p)).filter(Boolean)`.
`.map` exists only on arrays (in particular not on the string a string-valued
field would produce), so anything else throws. -/
def extractPointsSlice (pts : JValue) (alias3 : String) : Except JSError JValue := do
  let sliced ← jsSlice pts 5
  match sliced with
  | .arr xs => do
      let mapped ← xs.mapM (fun p => do
          let n ← p.getE "name"
          let l ← p.getE "location"
          let b ← p.getE alias3
          pure (n.jsOr (l.jsOr (b.jsOr (.str p.jsToString)))))
      return .arr (mapped.filter (·.truthy))
  | _ => throw ⟨"TypeError", "map is not a function"⟩

/-- `transformBusData` from `direct-api.ts`: normalize one raw provider record
into a `BusResult`.  Runs in `Except JSError` because several of its
operations (`dateStr.match`, `busType.toLowerCase`, `points.slice(...).map`,
property access on `null` elements) throw `TypeError` on wrong-typed fields,
exactly as the JavaScript does. -/
def transformBusData (bus : JValue) : Except JSError BusResult := do
  -- Parse departure and arrival times
  let depTime ← parseDateTime (← bus.getE "departureTime")
  let arrTime ← parseDateTime (← bus.getE "arrivalTime")
  -- Calculate duration (use API value if available)
  let durationMins := (← bus.getE "journeyDurationMin").jsOr
      (.num (calculateDurationMinutes depTime arrTime : ℚ))
  let durationFormatted := formatDuration durationMins
  -- Extract boarding/dropping points
  let boardingPoints ← extractPointsSlice
      ((← bus.getE "boardingPoints").jsOr ((← bus.getE "bpList").jsOr (.arr []))) "bpName"
  let droppingPoints ← extractPointsSlice
      ((← bus.getE "droppingPoints").jsOr ((← bus.getE "dpList").jsOr (.arr []))) "dpName"
  -- Extract amenities
  let amenities ← extractAmenities ((← bus.getE "amenities").jsOr ((← bus.getE "ac").jsOr (.arr [])))
  -- Determine bus features from busType string
  let busType := (← bus.getE "busType").jsOr (.str "")
  let busTypeLower ←
    match busType with
    | .str s => pure (jsToLower s)
    | _ => throw (⟨"TypeError", "busType.toLowerCase is not a function"⟩ : JSError)
  let isAc := (← bus.getE "isAc").jsOr
      (.bool (JValue.strIncludes busTypeLower "a/c" || JValue.strIncludes busTypeLower "ac"))
  let isSleeper := JValue.bool (JValue.strIncludes busTypeLower "sleeper")
  let isSeater := (← bus.getE "isSeater").jsOr (.bool (JValue.strIncludes busTypeLower "seater"))
  -- Fare extraction and discount calculation
  let pr ← busPricing bus
  let priceFormatted := "₹" ++ (← pr.price.jsToLocaleStringEnIN)
  let originalPriceFormatted ←
    if pr.originalPrice.jsGT pr.price then do
      pure ("₹" ++ (← pr.originalPrice.jsToLocaleStringEnIN))
    else pure ""
  let discount :=
    match pr.discountPercent with
    | some d => if d > 0 then toString d ++ "% OFF" else ""
    | none => ""
  -- Rating is in totalRatings field
  let rating := (← bus.getE "totalRatings").jsOr
      ((← bus.getE "rating").jsOr ((← bus.getE "busRating").jsOr (.num 0)))
  -- Offer/campaign info
  let campaign := (← bus.getE "operatorOfferCampaign").jsOr (.obj [])
  let offerTag := (campaign.getOpt "title").jsOr ((campaign.getOpt "offerText").jsOr (.str ""))
  -- Persuasion/tags
  let persuasion := (← bus.getE "persuasion").jsOr (.obj [])
  let tags1 : List JValue :=
    if (persuasion.getOpt "onTime").truthy then [.str "On Time"] else []
  let tags2 : List JValue :=
    if (persuasion.getOpt "freeDateChange").truthy || (← bus.getE "isFreeDateChange").truthy then
      [.str "Free date change"] else []
  let tags3 : List JValue :=
    if (persuasion.getOpt "freeSnacks").truthy then [.str "Free Snacks"] else []
  let tags4 : List JValue :=
    if (← bus.getE "isLiveTrackingAvailable").truthy then [.str "Live Tracking"] else []
  -- Primo
  let isPrimo := ((← bus.getE "rdBoostInfo").getOpt "isPrimo").jsOr
      ((← bus.getE "isPrimo").jsOr (.bool false))
  -- Special messages
  let specialMessage := (← bus.getE "serviceNotes").jsOr ((persuasion.getOpt "message").jsOr (.str ""))
  -- Seats info
  let singleSeats := (← bus.getE "availableWindowSeats").jsOr (.num 0)
  let windowSeats := (← bus.getE "availableWindowSeats").jsOr (.num 0)
  -- Route description: `bus.routeName || `${src} to ${dst}`.trim() || ''`
  let routeTemplate := jsTrim (((← bus.getE "source").jsOr (.str "")).jsToString ++ " to " ++
      ((← bus.getE "destination").jsOr (.str "")).jsToString)
  return {
    id := .str ((← bus.getE "routeId").jsOr
        ((← bus.getE "serviceId").jsOr ((← bus.getE "id").jsOr (.str "")))).jsToString
    operator := (← bus.getE "travelsName").jsOr
        ((← bus.getE "travels").jsOr ((← bus.getE "operatorName").jsOr (.str "")))
    operatorId := .str ((← bus.getE "operatorId").jsOr (.str "")).jsToString
    serviceName := (← bus.getE "serviceName").jsOr (.str "")
    busType := busType
    isAc := isAc
    isSleeper := isSleeper
    isSeater := isSeater
    isElectricVehicle := (← bus.getE "isElectricVehicle").jsOr (.bool false)
    departureTime := .str (formatTime depTime)
    arrivalTime := .str (formatTime arrTime)
    duration := .str durationFormatted
    durationMinutes := durationMins
    price := pr.price
    priceFormatted := .str priceFormatted
    originalPrice := pr.originalPrice
    originalPriceFormatted := .str originalPriceFormatted
    discount := .str discount
    rating := .str rating.jsToString
    numberOfReviews := (← bus.getE "numberOfReviews").jsOr ((← bus.getE "ratingCount").jsOr (.num 0))
    seatsAvailable := (← bus.getE "availableSeats").jsOr (.num 0)
    totalSeats := (← bus.getE "totalSeats").jsOr (.num 0)
    singleSeats := singleSeats
    windowSeats := windowSeats
    route := (← bus.getE "routeName").jsOr ((JValue.str routeTemplate).jsOr (.str ""))
    viaRoute := (← bus.getE "viaRt").jsOr (.str "")
    boardingPoint := (← bus.getE "standardBpName").jsOr ((boardingPoints.indexT 0).jsOr (.str ""))
    droppingPoint := (← bus.getE "standardDpName").jsOr ((droppingPoints.indexT 0).jsOr (.str ""))
    boardingPoints := boardingPoints
    droppingPoints := droppingPoints
    amenities := amenities
    tags := .arr (tags1 ++ tags2 ++ tags3 ++ tags4)
    isPrimo := isPrimo
    isLiveTracking := (← bus.getE "isLiveTrackingAvailable").jsOr (.bool false)
    hasFreeDateChange := (persuasion.getOpt "freeDateChange").jsOr
        ((← bus.getE "isFreeDateChange").jsOr (.bool false))
    offerTag := offerTag
    specialMessage := specialMessage
    cancellationPolicy := (← bus.getE "cancellationPolicy").jsOr (.str "")
    isSponsored := (← bus.getE "isSponsored").jsOr
        (.bool ((← bus.getE "campaignType").strictEqStr "sponsored"))
  }

/-- `BusSearchParams` from `direct-api.ts`.  `parseInt` of a non-numeric
query value is JavaScript `NaN`, modelled as `none`. -/
structure BusSearchParams where
  fromCityId : Option ℤ
  toCityId : Option ℤ
  journeyDate : String
  limit : Option ℚ
  offset : Option ℚ
deriving DecidableEq, Repr

/-- Outcome of the single `fetch` call in `fetchBusesDirectAPI`: the
`AbortController` timeout fired, the promise rejected with some error, or a
response arrived with a status and a body whose `.json()` either parses or
throws. -/
inductive FetchOutcome where
  | abortTimeout
  | netError (e : JSError)
  | response (status : ℕ) (statusText : String) (body : Except JSError JValue)

/-- `DirectAPIResult` from `direct-api.ts` (the wall-clock `timing` field is
omitted from the model). -/
structure DirectAPIResult where
  success : Bool
  items : List BusResult
  totalFound : JValue
  source : String
  errors : List String

/-- The `try` block of `fetchBusesDirectAPI`: non-2xx throws
`HTTP <status>: <statusText>`, an unsuccessful payload throws its message,
and the inventories are mapped through `transformBusData`. -/
def fetchTry (outcome : FetchOutcome) : Except JSError (List BusResult × JValue) := do
  match outcome with
  | .abortTimeout => throw (⟨"AbortError", "The operation was aborted"⟩ : JSError)
  | .netError e => throw e
  | .response status statusText body =>
      if !(200 ≤ status && status < 300) then
        throw (⟨"Error", "HTTP " ++ toString status ++ ": " ++ statusText⟩ : JSError)
      else do
        let data ← body
        let suc ← data.getE "success"
        if !suc.truthy then
          throw (⟨"Error",
            (((← data.getE "message").jsOr (.str "API returned unsuccessful response"))).jsToString⟩ : JSError)
        else do
          let inventories := ((data.getOpt "data").getOpt "inventories").jsOr (.arr [])
          let totalCount := (((data.getOpt "data").getOpt "metaData").getOpt "totalCount").jsOr (.num 0)
          let items ←
            match inventories with
            | .arr xs => xs.mapM transformBusData
            | _ => throw (⟨"TypeError", "inventories.map is not a function"⟩ : JSError)
          return (items, totalCount)

/-- `fetchBusesDirectAPI`: every exception of the `try` block — timeout,
transport failure, non-2xx status, JSON parse failure, unsuccessful payload,
or a `TypeError` out of `transformBusData` — is caught at this boundary and
converted into `success:false`, zero items and one descriptive error
message.  `params` only shapes the query string and cannot affect the
branching, so the result depends on the network outcome alone. -/
def fetchBusesDirectAPI (_params : BusSearchParams) (outcome : FetchOutcome) :
    DirectAPIResult :=
  match fetchTry outcome with
  | .ok (items, totalCount) =>
      { success := true, items := items, totalFound := totalCount
        source := "direct-api", errors := [] }
  | .error e =>
      let errorMsg :=
        if e.name == "AbortError" then "Request timed out"
        else if e.message != "" then e.message
        else "Unknown error"
      { success := false, items := [], totalFound := .num 0
        source := "direct-api", errors := [errorMsg] }

/-- `new URL(url)` validity, restricted to the absolute `http(s)`-style URLs
this pipeline receives: a nonempty alphabetic scheme followed by `://`. -/
def urlIsValid (url : String) : Bool :=
  match url.toList.span Char.isAlpha with
  | (scheme, ':' :: '/' :: '/' :: _) => !scheme.isEmpty
  | _ => false

/-- The query portion of a URL (after the first `?`, before any `#`). -/
def urlQuery (url : String) : String :=
  match url.toList.dropWhile (· != '?') with
  | [] => ""
  | _ :: rest => String.mk (rest.takeWhile (· != '#'))

/-- Split a character list at every occurrence of a separator. -/
def splitOnChar (c : Char) : List Char → List (List Char)
  | [] => [[]]
  | x :: rest =>
      match splitOnChar c rest with
      | [] => if x == c then [[], [x]] else [[x]]
      | g :: gs => if x == c then [] :: g :: gs else (x :: g) :: gs

/-- `urlObj.searchParams.get(key)`: first `key=value` pair of the query, or
`none`.  (Percent-decoding is omitted; the city-id and date parameters this
code reads are plain alphanumerics and dashes.) -/
def searchParamsGet (url : String) (key : String) : Option String :=
  let pairs := splitOnChar '&' (urlQuery url).toList
  (pairs.filterMap (fun p =>
      if String.mk (p.takeWhile (· != '=')) == key then
        some (String.mk ((p.dropWhile (· != '=')).drop 1))
      else none)).head?

/-- JavaScript `parseInt(s)`: leading integer of the trimmed string, `none`
for `NaN`. -/
def parseIntJS (s : String) : Option ℤ :=
  match (jsTrim s).toList with
  | '-' :: ds =>
      (let digs := ds.takeWhile Char.isDigit
       if digs.isEmpty then none else some (-(digitsToNat digs : ℤ)))
  | '+' :: ds =>
      (let digs := ds.takeWhile Char.isDigit
       if digs.isEmpty then none else some (digitsToNat digs : ℤ))
  | ds =>
      (let digs := ds.takeWhile Char.isDigit
       if digs.isEmpty then none else some (digitsToNat digs : ℤ))

/-- `parseRedBusUrl` from `direct-api.ts`: extract `fromCityId`, `toCityId`
and the journey date (`onward`, falling back to `doj`) from a search URL;
`null` when the URL is invalid or a parameter is missing or empty. -/
def parseRedBusUrl (url : String) : Option BusSearchParams :=
  if !urlIsValid url then none
  else
    let fromCityId := searchParamsGet url "fromCityId"
    let toCityId := searchParamsGet url "toCityId"
    let onward := (searchParamsGet url "onward").getD ""
    let journeyDate := if onward != "" then some onward else searchParamsGet url "doj"
    match fromCityId, toCityId, journeyDate with
    | some f, some t, some j =>
        if f == "" || t == "" || j == "" then none
        else some { fromCityId := parseIntJS f, toCityId := parseIntJS t
                    journeyDate := j, limit := none, offset := none }
    | _, _, _ => none

/-! ## `src/vercel-backend/lib/scraper.ts`

The browser is an external effect: the outcome of each browser-side
extraction (`extractViaXHR`, `extractViaInjection`, the injected dataLayer
and selector scripts) and of page navigation is supplied by an explicit
oracle, and `scrapeWebsite`'s control flow over those outcomes is embedded
verbatim.
-/

/-- JSON string escaping for `JSON.stringify`. -/
def jsonEscapeChar (c : Char) : String :=
  if c = '"' then "\\\""
  else if c = '\\' then "\\\\"
  else if c = '\n' then "\\n"
  else if c = '\r' then "\\r"
  else if c = '\t' then "\\t"
  else String.mk [c]

/-- `JSON.stringify` of a string value. -/
def jsonEscape (s : String) : String :=
  "\"" ++ String.join (s.toList.map jsonEscapeChar) ++ "\""

mutual

/-- `JSON.stringify`: `none` when the value is `undefined` (dropped). -/
def jsonStringify : JValue → Option String
  | .undef => none
  | .null => some "null"
  | .bool b => some (if b then "true" else "false")
  | .num q => some (numToString q)
  | .str s => some (jsonEscape s)
  | .arr xs => some ("[" ++ jsonArrElems xs ++ "]")
  | .obj fs => some ("\x7b" ++ jsonObjFields fs ++ "\x7d")
  termination_by structural v => v

/-- Array elements of `JSON.stringify` (`undefined` renders as `null`). -/
def jsonArrElems : List JValue → String
  | [] => ""
  | [x] => (jsonStringify x).getD "null"
  | x :: y :: rest => (jsonStringify x).getD "null" ++ "," ++ jsonArrElems (y :: rest)
  termination_by structural l => l

/-- Object fields of `JSON.stringify` (`undefined`-valued keys are omitted). -/
def jsonObjFields : List (String × JValue) → String
  | [] => ""
  | (k, v) :: rest =>
      match jsonStringify v with
      | none => jsonObjFields rest
      | some sv =>
          let tail := jsonObjFields rest
          if tail = "" then jsonEscape k ++ ":" ++ sv
          else jsonEscape k ++ ":" ++ sv ++ "," ++ tail
  termination_by structural l => l

end

/-- A `BusResult` as the JavaScript object `transformBusData` returns, with
its properties in the source's literal order (used where the scraper
serializes or forwards the records). -/
def busResultToJValue (r : BusResult) : JValue :=
  .obj [("id", r.id), ("operator", r.operator), ("operatorId", r.operatorId),
    ("serviceName", r.serviceName), ("busType", r.busType), ("isAc", r.isAc),
    ("isSleeper", r.isSleeper), ("isSeater", r.isSeater),
    ("isElectricVehicle", r.isElectricVehicle),
    ("departureTime", r.departureTime), ("arrivalTime", r.arrivalTime),
    ("duration", r.duration), ("durationMinutes", r.durationMinutes),
    ("price", r.price), ("priceFormatted", r.priceFormatted),
    ("originalPrice", r.originalPrice),
    ("originalPriceFormatted", r.originalPriceFormatted),
    ("discount", r.discount), ("rating", r.rating),
    ("numberOfReviews", r.numberOfReviews),
    ("seatsAvailable", r.seatsAvailable), ("totalSeats", r.totalSeats),
    ("singleSeats", r.singleSeats), ("windowSeats", r.windowSeats),
    ("route", r.route), ("viaRoute", r.viaRoute),
    ("boardingPoint", r.boardingPoint), ("droppingPoint", r.droppingPoint),
    ("boardingPoints", r.boardingPoints), ("droppingPoints", r.droppingPoints),
    ("amenities", r.amenities), ("tags", r.tags), ("isPrimo", r.isPrimo),
    ("isLiveTracking", r.isLiveTracking),
    ("hasFreeDateChange", r.hasFreeDateChange), ("offerTag", r.offerTag),
    ("specialMessage", r.specialMessage),
    ("cancellationPolicy", r.cancellationPolicy), ("isSponsored", r.isSponsored)]

/-- `ExtractionMode` from `scraper.ts`. -/
inductive ExtractionMode where
  | selectors
  | dataLayer
  | xhr
  | direct
  | auto
deriving DecidableEq, Repr

/-- `ScrapeOptions` (a request's partial options; `none` means the property
was omitted and the default applies). -/
structure ScrapeOptions where
  waitForJs : Option Bool := none
  timeout : Option ℕ := none
  waitForSelector : Option String := none
  userAgent : Option String := none
  maxResults : Option ℕ := none
  extractionMode : Option ExtractionMode := none
  dataLayerPreset : Option String := none
  xhrPreset : Option String := none
  fallbackOnError : Option Bool := none
deriving DecidableEq, Repr

/-- One entry of `ScrapeResponse.results` (`ExtractedResult` from
`selector-extractor.ts`). -/
structure ExtractedResult where
  id : String
  found : Bool
  type : String
  data : Option String
  error : Option String
deriving DecidableEq, Repr

/-- `XHRExtractionResult` from the XHR interceptor. -/
structure XHRExtractionResult where
  success : Bool
  items : List JValue
  totalFound : JValue
  interceptedUrl : Option String
  errors : List String

/-- `ExtractedDataLayerResult` from `datalayer-extractor.ts`. -/
structure ExtractedDataLayerResult where
  success : Bool
  items : List JValue
  totalFound : JValue
  errors : List String

/-- Oracle for the browser-based phase of one `scrapeWebsite` call: whether
navigation threw, and what each browser-side extraction returned.  The
selector results stand for evaluating the extractor script against the
request's selector list on the loaded page. -/
structure BrowserOracle where
  gotoError : Option String
  xhr : XHRExtractionResult
  injection : XHRExtractionResult
  dataLayer : ExtractedDataLayerResult
  selectorResults : List ExtractedResult

/-- `ScrapeResponse` (wall-clock `timing` omitted). -/
structure ScrapeResponse where
  success : Bool
  url : String
  results : List ExtractedResult
  errors : List String
  dataLayerItems : Option (List JValue)
  totalItemsFound : Option JValue
  extractionMode : Option ExtractionMode
  interceptedUrl : Option String

/-- `detectPreset` from `datalayer-extractor.ts`. -/
def detectPreset (url : String) : Option String :=
  if JValue.strIncludes (jsToLower url) "redbus." then some "redbus" else none

/-- The keys of `XHR_PRESETS` (`xhr-extractor`): only `redbus`. -/
def xhrPresetExists (k : String) : Bool :=
  k == "redbus"

/-- The user-friendly error translation of `scrapeWebsite`'s catch branch. -/
def friendlyError (errorMessage : String) : String :=
  if JValue.strIncludes errorMessage "net::ERR_NAME_NOT_RESOLVED" then
    "Website not found. Please check the URL."
  else if JValue.strIncludes errorMessage "net::ERR_CONNECTION_REFUSED" then
    "Could not connect to website. It may be down or blocking access."
  else if JValue.strIncludes errorMessage "timeout" then
    "Website took too long to load. Try again or increase timeout."
  else if JValue.strIncludes errorMessage "net::ERR_ABORTED" then
    "Request was blocked. This website may restrict automated access."
  else errorMessage

/-- One `results` entry built from an extracted item
(`{ id: "item_<i>", found: true, type: 'text', data: JSON.stringify(item) }`). -/
def mkItemResult (i : ℕ) (item : JValue) : ExtractedResult :=
  { id := "item_" ++ toString i, found := true, type := "text"
    data := some ((jsonStringify item).getD "undefined"), error := none }

/-- The browser-based phase of `scrapeWebsite` (lines 133–349): navigation,
auto-mode resolution, the XHR → injection → dataLayer cascade, and the
selector branch.  `accErrors` is the `errors` array accumulated before the
phase starts (the Direct-API errors pushed on fallback).  A navigation error
reproduces the catch branch: the accumulated errors are discarded and only
the friendly message is returned.  The `results` assignment inside the
XHR-success branch (lines 233–238) is dead in the source — the selector
branch below it unconditionally overwrites `results` — and is therefore not
reproduced. -/
def browserExtract (url : String) (options : ScrapeOptions) (b : BrowserOracle)
    (accErrors : List String) : ScrapeResponse :=
  match b.gotoError with
  | some msg =>
      let m := if msg != "" then msg else "Unknown scraping error"
      { success := false, url := url, results := [], errors := [friendlyError m]
        dataLayerItems := none, totalItemsFound := none
        extractionMode := none, interceptedUrl := none }
  | none =>
      -- auto-mode resolution (lines 176–194)
      let mode1 : ExtractionMode :=
        match options.extractionMode.getD .selectors with
        | .auto =>
            match detectPreset url with
            | some p => if xhrPresetExists p then .xhr else .dataLayer
            | none => .selectors
        | m => m
      -- XHR interception stage with injection fallback (lines 202–244)
      let maxResults := options.maxResults.getD 10
      let xhrPick : Option XHRExtractionResult :=
        if mode1 == .xhr then
          (let x1 := b.xhr
           let x2 := if !x1.success || x1.items.isEmpty then b.injection else x1
           if !x2.success || x2.items.isEmpty then none else some x2)
        else none
      let mode2 := if mode1 == .xhr && xhrPick.isNone then .dataLayer else mode1
      let (dlItems0, total0, intercepted0, errors0) :=
        match xhrPick with
        | some x =>
            let items :=
              if maxResults != 0 && decide (maxResults < x.items.length) then
                x.items.take maxResults
              else x.items
            (some items, some x.totalFound, x.interceptedUrl, accErrors ++ x.errors)
        | none => (none, none, none, accErrors)
      if mode2 == .dataLayer then
        -- dataLayer extraction (lines 246–275)
        let dl := b.dataLayer
        let errors1 := if !dl.success then errors0 ++ dl.errors else errors0
        { success := true, url := url
          results := dl.items.mapIdx (fun i item => mkItemResult i item)
          errors := errors1
          dataLayerItems := some dl.items, totalItemsFound := some dl.totalFound
          extractionMode := some mode2, interceptedUrl := intercepted0 }
      else
        -- selector-based extraction (lines 277–297); runs whenever the final
        -- mode is not dataLayer — including right after a successful XHR
        -- interception, whose `results` it overwrites
        let results1 := b.selectorResults
        let selErrors := results1.filterMap (fun r =>
          if !r.found then
            r.error.bind (fun e => if e != "" then some (r.id ++ ": " ++ e) else none)
          else none)
        { success := true, url := url, results := results1
          errors := errors0 ++ selErrors
          dataLayerItems := dlItems0, totalItemsFound := total0
          extractionMode := some mode2, interceptedUrl := intercepted0 }

/-- `scrapeWebsite` (lines 72–350): the Direct-API phase followed, on failure
with fallback enabled, by the browser phase.  `directOutcome` is the network
oracle for the one `fetch` the Direct-API strategy performs; `b` is the
browser oracle. -/
def scrapeWebsite (url : String) (reqOptions : ScrapeOptions)
    (directOutcome : FetchOutcome) (b : BrowserOracle) : ScrapeResponse :=
  let options := reqOptions
  let fallbackOnError := options.fallbackOnError != some false
  let isRedBusUrl := JValue.strIncludes (jsToLower url) "redbus."
  let spOpt := parseRedBusUrl url
  let canUseDirectApi := isRedBusUrl && spOpt.isSome
  if (options.extractionMode == some ExtractionMode.direct
      || options.extractionMode == some ExtractionMode.auto) && canUseDirectApi then
    match spOpt with
    | some sp =>
        let maxResults := options.maxResults.getD 10
        let searchParams :=
          { sp with limit := some (if maxResults != 0 then (maxResults : ℚ) else 20) }
        let directResult := fetchBusesDirectAPI searchParams directOutcome
        if directResult.success && !directResult.items.isEmpty then
          { success := true, url := url
            results := directResult.items.mapIdx (fun i item =>
              mkItemResult i (busResultToJValue item))
            errors := directResult.errors
            extractionMode := some .direct
            dataLayerItems := some (directResult.items.map busResultToJValue)
            totalItemsFound := some directResult.totalFound
            interceptedUrl := none }
        else if fallbackOnError then
          browserExtract url options b directResult.errors
        else
          { success := false, url := url, results := []
            errors := directResult.errors
            extractionMode := some .direct
            dataLayerItems := none, totalItemsFound := none, interceptedUrl := none }
    | none => browserExtract url options b []
  else browserExtract url options b []

/-! ## `src/figma-plugin/src/types/messages.ts`

The Figma document is a tree of scene nodes; only the properties this code
reads are modelled: node type (`TEXT` vs container), display name, font and
text content.  `figma.loadFontAsync` succeeds exactly for the fonts in the
`fonts` oracle list; a rejected load is the caught per-field exception.  The
source mutates `textNode.characters` in place; the model emits the same
assignments as an ordered write trace `(text node id, written string)`. -/

/-- A Figma scene node: a text node or a container with children. -/
inductive SceneNode where
  | text (id : ℕ) (name : String) (font : String) (characters : String)
  | frame (id : ℕ) (name : String) (children : List SceneNode)

/-- The display name of a node. -/
def SceneNode.name : SceneNode → String
  | .text _ n _ _ => n
  | .frame _ n _ => n

/-- The id of a node. -/
def SceneNode.nodeId : SceneNode → ℕ
  | .text i _ _ _ => i
  | .frame i _ _ => i

/-- `SyncScope` from `messages.ts`. -/
inductive SyncScope where
  | document
  | page
  | selection
deriving DecidableEq, Repr

/-- A document page (only its children matter here). -/
structure PageNode where
  children : List SceneNode

/-- The ambient Figma state read by `getNodesForScope`. -/
structure FigmaState where
  pages : List PageNode
  currentPage : PageNode
  selection : List SceneNode

/-- `getNodesForScope`: document flattens every page's children; page uses the
current page; selection uses the current selection, falling back to the whole
current page when nothing is selected. -/
def getNodesForScope (scope : SyncScope) (st : FigmaState) : List SceneNode :=
  match scope with
  | .document => (st.pages.map (·.children)).flatten
  | .page => st.currentPage.children
  | .selection =>
      if st.selection.length > 0 then st.selection else st.currentPage.children

mutual

/-- `findTextInNode`: the node itself when it is a text node, else the first
text node of its subtree in depth-first order. -/
def findTextInNode : SceneNode → Option SceneNode
  | .text i n f c => some (.text i n f c)
  | .frame _ _ cs => findTextInForest cs
  termination_by structural n => n

/-- The `for (const child of node.children)` loop of `findTextInNode`. -/
def findTextInForest : List SceneNode → Option SceneNode
  | [] => none
  | n :: rest =>
      match findTextInNode n with
      | some t => some t
      | none => findTextInForest rest
  termination_by structural l => l

end

/-- JavaScript `Map.prototype.set`: overwrite the existing binding in place,
else append. -/
def mapSet {κ α : Type} [BEq κ] (m : List (κ × α)) (k : κ) (v : α) : List (κ × α) :=
  if m.any (·.1 == k) then m.map (fun p => if p.1 == k then (k, v) else p)
  else m ++ [(k, v)]

/-- JavaScript `Map.prototype.get`. -/
def mapGet {κ α : Type} [BEq κ] (m : List (κ × α)) (k : κ) : Option α :=
  (m.find? (·.1 == k)).map (·.2)

/-- The body of `findIndexedFrames`' `searchNode`: record the node under its
parsed ordinal, if any. -/
def indexStep (m : List (ℕ × SceneNode)) (n : SceneNode) : List (ℕ × SceneNode) :=
  match parseFrameIndex n.name with
  | some k => mapSet m k n
  | none => m

mutual

/-- `searchNode` of `findIndexedFrames`: record the node itself, then search
its children. -/
def indexSearchNode : List (ℕ × SceneNode) → SceneNode → List (ℕ × SceneNode)
  | m, .text i nm f c => indexStep m (.text i nm f c)
  | m, .frame i nm cs => findIndexedFramesAux (indexStep m (.frame i nm cs)) cs
  termination_by structural _ n => n

/-- The `for (const node of nodes)` loop of `findIndexedFrames` (and the loop
over children inside `searchNode`). -/
def findIndexedFramesAux : List (ℕ × SceneNode) → List SceneNode → List (ℕ × SceneNode)
  | m, [] => m
  | m, n :: rest => findIndexedFramesAux (indexSearchNode m n) rest
  termination_by structural _ l => l

end

/-- `findIndexedFrames`: map each `@[N]` ordinal found in the scope to a node.
Later `Map.set` calls overwrite earlier ones. -/
def findIndexedFrames (nodes : List SceneNode) : List (ℕ × SceneNode) :=
  findIndexedFramesAux [] nodes

/-- The body of `findFieldLayers`' `searchNode`. -/
def fieldStep (m : List (String × SceneNode)) (n : SceneNode) :
    List (String × SceneNode) :=
  match parseFieldName n.name with
  | some f => mapSet m f n
  | none => m

mutual

/-- `searchNode` of `findFieldLayers`: record the node itself, then search its
children. -/
def fieldSearchNode : List (String × SceneNode) → SceneNode → List (String × SceneNode)
  | m, .text i nm f c => fieldStep m (.text i nm f c)
  | m, .frame i nm cs => findFieldLayersAux (fieldStep m (.frame i nm cs)) cs
  termination_by structural _ n => n

/-- The loops of `findFieldLayers`, keyed by `@{field}` names. -/
def findFieldLayersAux : List (String × SceneNode) → List SceneNode → List (String × SceneNode)
  | m, [] => m
  | m, n :: rest => findFieldLayersAux (fieldSearchNode m n) rest
  termination_by structural _ l => l

end

/-- `findFieldLayers node`: field layers of the frame's subtree (the frame
itself included, as in the source). -/
def findFieldLayers (node : SceneNode) : List (String × SceneNode) :=
  findFieldLayersAux [] [node]

/-- The `{ updated, failed }` counters of `applyDataLayerItems`, plus the
ordered trace of `textNode.characters` assignments the run performs. -/
structure ApplyOutcome where
  updated : ℕ
  failed : ℕ
  writes : List (ℕ × String)
deriving DecidableEq, Repr

/-- Concatenation of two apply outcomes (counter addition, traces in order). -/
def ApplyOutcome.append (a b : ApplyOutcome) : ApplyOutcome :=
  ⟨a.updated + b.updated, a.failed + b.failed, a.writes ++ b.writes⟩

/-- The `for (const [fieldName, value] of Object.entries(item))` loop of
`applyDataLayerItems`: a field with no matching layer is skipped by
`continue`; a matching layer without a text node counts as failed; a text
node whose font loads gets the stringified value written and counts as
updated; a font-load rejection is caught and counts as failed. -/
def applyFields (fonts : List String) (fieldLayers : List (String × SceneNode)) :
    List (String × JValue) → ApplyOutcome
  | [] => ⟨0, 0, []⟩
  | (fieldName, value) :: rest =>
      let restOut := applyFields fonts fieldLayers rest
      match mapGet fieldLayers fieldName with
      | none => restOut
      | some layer =>
          let textNode :=
            match layer with
            | .text i n f c => some (SceneNode.text i n f c)
            | _ => findTextInNode layer
          match textNode with
          | some (.text tid _ font _) =>
              if fonts.contains font then
                ⟨restOut.updated + 1, restOut.failed,
                  (tid, (value.jsNullish (.str "")).jsToString) :: restOut.writes⟩
              else ⟨restOut.updated, restOut.failed + 1, restOut.writes⟩
          | some (.frame _ _ _) => restOut
          | none => ⟨restOut.updated, restOut.failed + 1, restOut.writes⟩

/-- The `for (let i = 0; i < items.length; i++)` loop of
`applyDataLayerItems`, carrying the running index: an index with no frame is
skipped. -/
def applyDataLayerAux (fonts : List String) (frames : List (ℕ × SceneNode)) :
    ℕ → List (List (String × JValue)) → ApplyOutcome
  | _, [] => ⟨0, 0, []⟩
  | i, item :: rest =>
      let cur : ApplyOutcome :=
        match mapGet frames i with
        | none => ⟨0, 0, []⟩
        | some frame => applyFields fonts (findFieldLayers frame) item
      cur.append (applyDataLayerAux fonts frames (i + 1) rest)

/-- `applyDataLayerItems`: project a record sequence onto the indexed frames
of a scope, returning the `{ updated, failed }` counters and the write
trace. -/
def applyDataLayerItems (items : List (List (String × JValue))) (scope : SyncScope)
    (st : FigmaState) (fonts : List String) : ApplyOutcome :=
  let nodes := getNodesForScope scope st
  let indexedFrames := findIndexedFrames nodes
  applyDataLayerAux fonts indexedFrames 0 items

mutual

/-- Depth-first preorder of one node's subtree. -/
def dfsNode : SceneNode → List SceneNode
  | .text i nm f c => [.text i nm f c]
  | .frame i nm cs => .frame i nm cs :: dfsForest cs
  termination_by structural n => n

/-- Depth-first preorder of a forest (the traversal order of the `searchNode`
recursions). -/
def dfsForest : List SceneNode → List SceneNode
  | [] => []
  | n :: rest => dfsNode n ++ dfsForest rest
  termination_by structural l => l

end

/-- The `@[N]`-carrying nodes of a scope in traversal order, with their
ordinals. -/
def indexedInTraversalOrder (nodes : List SceneNode) : List (ℕ × SceneNode) :=
  (dfsForest nodes).filterMap (fun n => (parseFrameIndex n.name).map (fun k => (k, n)))

/-- A concrete redbus.in search URL (city ids and journey date in the query
string, as `parseRedBusUrl` expects). -/
def redBusSearchUrl : String :=
  "https://www.redbus.in/bus-tickets/search?fromCityId=122&toCityId=71756&onward=23-Jan-2026"

/-- What `parseRedBusUrl` extracts from `redBusSearchUrl`. -/
def redBusSearchParams : BusSearchParams :=
  { fromCityId := some 122, toCityId := some 71756, journeyDate := "23-Jan-2026"
    limit := none, offset := none }

/-- A request that asks for auto extraction mode and leaves every other
option at its default. -/
def autoOpts : ScrapeOptions := { extractionMode := some ExtractionMode.auto }

/-- A Direct-API network outcome: the `fetch` promise rejects with `boom`. -/
def directNetError : FetchOutcome := .netError ⟨"Error", "boom"⟩

/-- A browser run in which XHR interception succeeds with one item while the
injection fallback and the dataLayer have nothing, and the selector pass
returns no entries. -/
def browserXhrWins : BrowserOracle :=
  { gotoError := none
    xhr := { success := true, items := [.obj [("x", .num 1)]], totalFound := .num 1
             interceptedUrl := some "https://api.example/search", errors := [] }
    injection := { success := false, items := [], totalFound := .num 0
                   interceptedUrl := none, errors := [] }
    dataLayer := { success := true, items := [], totalFound := .num 0, errors := [] }
    selectorResults := [] }

/-- A browser run in which every extraction strategy fails: both intercepts
report failure and the dataLayer extraction fails with its own error. -/
def browserAllFail : BrowserOracle :=
  { gotoError := none
    xhr := { success := false, items := [], totalFound := .num 0
             interceptedUrl := none, errors := [] }
    injection := { success := false, items := [], totalFound := .num 0
                   interceptedUrl := none, errors := [] }
    dataLayer := { success := false, items := [], totalFound := .num 0, errors := ["dl-err"] }
    selectorResults := [] }

/-! ## Supporting lemmas -/

/-- A successful layer-name match always sits at an `@{` occurrence, so a
name without that two-character sequence can never parse. -/
theorem findLayerMatch_marker (cs : List Char)
    (r : List Char × Option (List Char) × Option (List Char) × Option (List Char))
    (h : findLayerMatch cs = some r) : ['@', '\x7b'] <:+: cs := by
  induction cs using findLayerMatch.induct with
  | case1 => simp [findLayerMatch] at h
  | case2 rest2 hd tl after md ix ar hmod hspan => exact ⟨[], rest2, rfl⟩
  | case3 rest2 fp rest3 hspan hne ih =>
      refine List.infix_cons (ih ?_)
      simp only [findLayerMatch, hspan] at h
      simp only [findLayerMatch]
      exact h
  | case4 rest hne ih =>
      refine List.infix_cons (ih ?_)
      simp only [findLayerMatch] at h
      exact h
  | case5 hd rest hne ih =>
      rw [findLayerMatch] at h
      · exact List.infix_cons (ih h)
      · exact hne

/-! ## Claim theorems -/

/-- C2: for every pair of valid `HH:MM` departure/arrival times, the computed
trip duration is non-negative and equals `(arrival − departure) mod 1440`
(adding 1440 when the raw arrival precedes the departure), and in particular
departure 22:30 with arrival 05:45 yields 435 minutes. -/
theorem c2_duration_nonneg_mod1440 :
    (∀ dep arr : TimeHM,
        0 ≤ dep.hours → dep.hours < 24 → 0 ≤ dep.minutes → dep.minutes < 60 →
        0 ≤ arr.hours → arr.hours < 24 → 0 ≤ arr.minutes → arr.minutes < 60 →
        0 ≤ calculateDurationMinutes dep arr ∧
        calculateDurationMinutes dep arr =
          ((arr.hours * 60 + arr.minutes) - (dep.hours * 60 + dep.minutes)) % 1440) ∧
    calculateDurationMinutes ⟨22, 30⟩ ⟨5, 45⟩ = 435 := by
  refine ⟨?_, by decide⟩
  intro dep arr h1 h2 h3 h4 h5 h6 h7 h8
  simp only [calculateDurationMinutes]
  split <;> constructor <;> omega

/-- C2 witness: the overnight example 22:30 → 05:45 instantiates the
universal statement. -/
theorem c2_duration_nonneg_mod1440_witness :
    0 ≤ calculateDurationMinutes ⟨22, 30⟩ ⟨5, 45⟩ ∧
    calculateDurationMinutes ⟨22, 30⟩ ⟨5, 45⟩ =
      ((5 * 60 + 45) - (22 * 60 + 30)) % 1440 :=
  c2_duration_nonneg_mod1440.1 ⟨22, 30⟩ ⟨5, 45⟩ (by decide) (by decide) (by decide)
    (by decide) (by decide) (by decide) (by decide) (by decide)

/-- C4: `parseLayerName` is total (it is a Lean function on all strings) and
decodes the `@{selector}[.modifier[[index]|(arg)]]` grammar: a name without
`@{` yields `none`; the three decoding examples hold; a parenthesised
argument after the `attr` modifier is captured as the attribute; and
`groupIndex` is populated only when the modifier is `group`. -/
theorem c4_parseLayerName_grammar :
    (∀ name : String, ¬ (['@', '\x7b'] <:+: name.toList) → parseLayerName name = none) ∧
    parseLayerName "Card Title @\x7bh1\x7d" =
      some { selector := "h1", modifier := none, attr := none, groupIndex := none } ∧
    parseLayerName "@\x7b.container\x7d.group[2]" =
      some { selector := ".container", modifier := some "group", attr := none,
             groupIndex := some 2 } ∧
    parseLayerName "@\x7ba\x7d.attr(href)" =
      some { selector := "a", modifier := some "attr", attr := some "href",
             groupIndex := none } ∧
    (∀ (name : String) (r : ScraperSelector), parseLayerName name = some r →
        r.groupIndex.isSome → r.modifier = some "group") := by
  refine ⟨?_, by decide, by decide, by decide, ?_⟩
  · intro name hn
    cases hm : findLayerMatch name.toList with
    | none => unfold parseLayerName; rw [hm]
    | some m => exact absurd (findLayerMatch_marker _ _ hm) hn
  · intro name r hp hg
    unfold parseLayerName at hp
    cases hm : findLayerMatch name.toList with
    | none => rw [hm] at hp; exact absurd hp (by simp)
    | some m =>
        obtain ⟨sel, md, ix, ar⟩ := m
        rw [hm] at hp
        simp only [Option.some.injEq] at hp
        subst hp
        by_cases hc : (ix.isSome && (md.map String.mk == some "group")) = true
        · exact eq_of_beq ((Bool.and_eq_true ..).mp hc).2
        · simp only [hc] at hg
          simp at hg

/-- C4 witness: a plain name without the `@{` marker parses to `none`. -/
theorem c4_parseLayerName_grammar_witness :
    parseLayerName "Plain Text" = none :=
  c4_parseLayerName_grammar.1 "Plain Text" (by decide)

/-- C5: record projection pairs record `i` with the frame whose display name
carries ordinal `@[i]` (`parseFrameIndex "Card @[3]" = 3`,
`parseFrameIndex "Card" = null`); a record with no matching frame is skipped
without error; and in the concrete 3-records / ordinals-{0,2,5} scene, frame
0 receives record 0, frame 2 receives record 2, record 1 is dropped, frame 5
gets nothing, and the counters reflect only the two attempted field
writes. -/
theorem c5_projection_pairing :
    parseFrameIndex "Card @[3]" = some 3 ∧
    parseFrameIndex "Card" = none ∧
    (∀ (fonts : List String) (frames : List (ℕ × SceneNode)) (i : ℕ)
        (item : List (String × JValue)) (rest : List (List (String × JValue))),
      mapGet frames i = none →
      applyDataLayerAux fonts frames i (item :: rest) =
        applyDataLayerAux fonts frames (i + 1) rest) ∧
    applyDataLayerItems
      [[("title", .str "A")], [("title", .str "B")], [("title", .str "C")]] .page
      ⟨[], ⟨[.frame 10 "Card @[0]" [.text 11 "@\x7btitle\x7d" "Inter" "Old 0"],
             .frame 20 "Card @[2]" [.text 21 "@\x7btitle\x7d" "Inter" "Old 2"],
             .frame 50 "Card @[5]" [.text 51 "@\x7btitle\x7d" "Inter" "Old 5"]]⟩, []⟩
      ["Inter"] = ⟨2, 0, [(11, "A"), (21, "C")]⟩ := by
  refine ⟨by decide, by decide, ?_, by decide⟩
  intro fonts frames i item rest hf
  simp only [applyDataLayerAux, hf]
  cases applyDataLayerAux fonts frames (i + 1) rest
  simp [ApplyOutcome.append]

/-- C5 witness: the skip rule instantiated at an empty frame map. -/
theorem c5_projection_pairing_witness :
    applyDataLayerAux [] [] 0 [[("x", JValue.str "v")]] = applyDataLayerAux [] [] 1 [] :=
  c5_projection_pairing.2.2.1 [] [] 0 [("x", JValue.str "v")] [] rfl

/-- C6 counterexample: a record field with no matching `@{...}` layer in its
frame is skipped by `continue` and is not counted in `failed` — the claim
says it should be counted, but the run reports `failed = 0`. -/
theorem c6_missing_layer_counterexample :
    applyDataLayerItems [[("title", JValue.str "A")]] .page
      ⟨[], ⟨[.frame 10 "Card @[0]" []]⟩, []⟩ ["Inter"] =
      ⟨0, 0, []⟩ := by decide

/-- C6 (amended): per-field apply errors are local — a font-load failure and
a field layer without a text node are each counted as failed rather than
thrown, a field with no matching layer is silently skipped without touching
either counter, and the batch runs to completion (the later frame's field is
still written), reporting `{updated, failed}`. -/
theorem c6_per_field_errors_local :
    applyDataLayerItems
      [[("bad", JValue.str "B"), ("good", JValue.str "G"), ("empty", JValue.str "E"),
        ("nolayer", JValue.str "N")],
       [("t2", JValue.str "Z")]] .page
      ⟨[], ⟨[.frame 10 "Card @[0]"
               [.text 11 "@\x7bbad\x7d" "MissingFont" "x",
                .text 12 "@\x7bgood\x7d" "Inter" "y",
                .frame 13 "@\x7bempty\x7d" []],
             .frame 30 "Card @[1]" [.text 31 "@\x7bt2\x7d" "Inter" "z"]]⟩, []⟩
      ["Inter"] = ⟨2, 2, [(12, "G"), (31, "Z")]⟩ := by decide

/-- C9: with scope `selection` and an empty current selection,
`getNodesForScope` returns the whole current page's children, so scanning and
projection operate on the entire page. -/
theorem c9_empty_selection_falls_back_to_page :
    ∀ st : FigmaState, st.selection = [] →
      getNodesForScope .selection st = st.currentPage.children ∧
      ∀ items fonts, applyDataLayerItems items .selection st fonts =
        applyDataLayerItems items .page st fonts := by
  intro st h
  have hg : getNodesForScope .selection st = st.currentPage.children := by
    simp [getNodesForScope, h]
  exact ⟨hg, fun items fonts => by
    simp [applyDataLayerItems, getNodesForScope, h]⟩

/-- C9 witness: a one-frame page with nothing selected. -/
theorem c9_empty_selection_falls_back_to_page_witness :
    getNodesForScope .selection
      ⟨[], ⟨[.frame 1 "Card @[0]" []]⟩, []⟩ =
      [SceneNode.frame 1 "Card @[0]" []] :=
  (c9_empty_selection_falls_back_to_page ⟨[], ⟨[.frame 1 "Card @[0]" []]⟩, []⟩ rfl).1

/-- C3 counterexample: a `departureTime` field of the wrong type (the number
1350 instead of a string) is truthy, so `parseDateTime` calls `.match` on a
number and the normalizer throws a `TypeError` instead of returning a
`BusResult`. -/
theorem c3_wrong_type_throws_counterexample :
    transformBusData (.obj [("departureTime", .num 1350)]) =
      .error ⟨"TypeError", "dateStr.match is not a function"⟩ := rfl

/-- C3 (amended): for records whose optional fields are merely missing — and
for recognised alternate field names — the normalizer returns a complete
`BusResult` of safe defaults: numbers 0, strings empty, lists empty, with the
derived presentation fields taking their degenerate forms (`departureTime` /
`arrivalTime` `"00:00"`, `priceFormatted` `"₹0"`, `rating` `"0"`, and
`route` the literal `"to"` left over from the `` `${src} to ${dst}` ``
template).  A present field of the wrong runtime type can instead make the
normalizer throw (see the counterexample). -/
theorem c3_missing_fields_degrade_to_defaults :
    transformBusData (.obj []) = .ok
      { id := .str "", operator := .str "", operatorId := .str "",
        serviceName := .str "", busType := .str "", isAc := .bool false,
        isSleeper := .bool false, isSeater := .bool false,
        isElectricVehicle := .bool false, departureTime := .str "00:00",
        arrivalTime := .str "00:00", duration := .str "",
        durationMinutes := .num 0, price := .num 0,
        priceFormatted := .str "₹0", originalPrice := .num 0,
        originalPriceFormatted := .str "", discount := .str "",
        rating := .str "0", numberOfReviews := .num 0,
        seatsAvailable := .num 0, totalSeats := .num 0, singleSeats := .num 0,
        windowSeats := .num 0, route := .str "to", viaRoute := .str "",
        boardingPoint := .str "", droppingPoint := .str "",
        boardingPoints := .arr [], droppingPoints := .arr [],
        amenities := .arr [], tags := .arr [], isPrimo := .bool false,
        isLiveTracking := .bool false, hasFreeDateChange := .bool false,
        offerTag := .str "", specialMessage := .str "",
        cancellationPolicy := .str "", isSponsored := .bool false } ∧
    (transformBusData (.obj [("travels", .str "VRL Travels")])).map (·.operator) =
      .ok (.str "VRL Travels") ∧
    (transformBusData (.obj [("bpList", .arr [.obj [("bpName", .str "Majestic")]])])).map
      (·.boardingPoints) = .ok (.arr [.str "Majestic"]) := by
  refine ⟨rfl, rfl, rfl⟩

/-- `Map.get` on the empty map. -/
theorem mapGet_nil {κ α : Type} [BEq κ] (k : κ) : mapGet ([] : List (κ × α)) k = none := rfl

/-- `Map.get` on a cons cell. -/
theorem mapGet_cons {κ α : Type} [BEq κ] (p : κ × α) (m : List (κ × α)) (k : κ) :
    mapGet (p :: m) k = if p.1 == k then some p.2 else mapGet m k := by
  by_cases h : (p.1 == k) = true
  · simp [mapGet, List.find?_cons_of_pos, h]
  · simp only [Bool.not_eq_true] at h
    simp [mapGet, List.find?_cons_of_neg, h]

/-- Overwriting key `k` in place leaves lookups of other keys unchanged. -/
theorem mapGet_map_ne {κ α : Type} [BEq κ] [LawfulBEq κ]
    (k k2 : κ) (v : α) (h : (k2 == k) = false) :
    ∀ m : List (κ × α),
      mapGet (m.map (fun p => if p.1 == k then (k, v) else p)) k2 = mapGet m k2 := by
  intro m
  induction m with
  | nil => rfl
  | cons p rest ih =>
      by_cases hp : (p.1 == k) = true
      · have hpk : p.1 = k := eq_of_beq hp
        have hk2 : (k == k2) = false := BEq.symm_false h
        simp [mapGet_cons, hp, hpk, hk2, ih, h]
      · simp only [Bool.not_eq_true] at hp
        simp [mapGet_cons, hp, ih]

/-- Overwriting an existing key in place makes its lookup the new value. -/
theorem mapGet_map_self {κ α : Type} [BEq κ] [LawfulBEq κ]
    (k : κ) (v : α) :
    ∀ m : List (κ × α), m.any (·.1 == k) = true →
      mapGet (m.map (fun p => if p.1 == k then (k, v) else p)) k = some v := by
  intro m
  induction m with
  | nil => intro h; simp at h
  | cons p rest ih =>
      intro h
      by_cases hp : (p.1 == k) = true
      · simp [mapGet_cons, hp]
      · simp only [Bool.not_eq_true] at hp
        simp only [List.any_cons, hp, Bool.false_or] at h
        simp [mapGet_cons, hp, ih h]

/-- Appending a fresh binding: lookups hit it only for its key. -/
theorem mapGet_append_single {κ α : Type} [BEq κ] [LawfulBEq κ]
    (k k2 : κ) (v : α) :
    ∀ m : List (κ × α), m.any (·.1 == k) = false →
      mapGet (m ++ [(k, v)]) k2 = if k2 == k then some v else mapGet m k2 := by
  intro m
  induction m with
  | nil =>
      intro _
      by_cases h : (k2 == k) = true
      · have : (k == k2) = true := BEq.symm h
        simp [mapGet_cons, this, h]
      · simp only [Bool.not_eq_true] at h
        have : (k == k2) = false := BEq.symm_false h
        simp [mapGet_cons, this, h, mapGet_nil]
  | cons p rest ih =>
      intro h
      simp only [List.any_cons, Bool.or_eq_false_iff] at h
      by_cases hp : (p.1 == k2) = true
      · by_cases hk : (k2 == k) = true
        · exact absurd (BEq.trans hp hk) (by simp [h.1])
        · simp only [Bool.not_eq_true] at hk
          simp [mapGet_cons, hp, hk]
      · simp only [Bool.not_eq_true] at hp
        simp [mapGet_cons, hp, ih h.2]

/-- `Map.get` after `Map.set`: the set key reads back the new value, all
other keys are untouched. -/
theorem mapGet_mapSet {κ α : Type} [BEq κ] [LawfulBEq κ]
    (m : List (κ × α)) (k k2 : κ) (v : α) :
    mapGet (mapSet m k v) k2 = if k2 == k then some v else mapGet m k2 := by
  by_cases hany : m.any (·.1 == k) = true
  · simp only [mapSet, hany, if_true]
    by_cases hk : (k2 == k) = true
    · have hkk : k2 = k := eq_of_beq hk
      subst hkk
      simp [hk, mapGet_map_self k2 v m hany]
    · simp only [Bool.not_eq_true] at hk
      simp [hk, mapGet_map_ne k k2 v hk m]
  · simp only [Bool.not_eq_true] at hany
    simp only [mapSet, hany]
    simp only [Bool.false_eq_true, if_false]
    exact mapGet_append_single k k2 v m hany

/-- Folding `Map.set` over a binding list: a lookup returns the value of the
last binding for that key, falling back to the initial map. -/
theorem mapGet_foldl_set {κ α : Type} [BEq κ] [LawfulBEq κ] :
    ∀ (l : List (κ × α)) (m : List (κ × α)) (k : κ),
      mapGet (l.foldl (fun acc p => mapSet acc p.1 p.2) m) k =
        ((((l.filter (·.1 == k)).getLast?).map (fun p => some p.2)).getD (mapGet m k)) := by
  intro l
  induction l with
  | nil => intro m k; rfl
  | cons p rest ih =>
      intro m k
      simp only [List.foldl_cons]
      rw [ih]
      by_cases hp : (p.1 == k) = true
      · simp only [List.filter_cons, hp, if_true]
        cases hfl : rest.filter (fun x => x.1 == k) with
        | nil =>
            simp only [hfl, List.getLast?_singleton, Option.map_some, Option.getD_some,
              Option.map_none, Option.getD_none]
            rw [mapGet_mapSet]
            have hkp : (k == p.1) = true := BEq.symm hp
            simp [hkp]
        | cons q qs =>
            obtain ⟨x, hx⟩ := Option.isSome_iff_exists.mp
              (List.getLast?_isSome.mpr (List.cons_ne_nil q qs))
            simp [hfl, hx, List.getLast?_cons_cons]
      · simp only [Bool.not_eq_true] at hp
        simp only [List.filter_cons, hp]
        cases hfl : rest.filter (fun x => x.1 == k) with
        | nil =>
            simp only [hfl, Option.map_none, Option.getD_none, List.getLast?_nil]
            rw [mapGet_mapSet]
            have hkp : (k == p.1) = false := BEq.symm_false hp
            simp [hkp]
        | cons q qs =>
            obtain ⟨x, hx⟩ := Option.isSome_iff_exists.mp
              (List.getLast?_isSome.mpr (List.cons_ne_nil q qs))
            simp [hfl, hx]

mutual

/-- `searchNode` is the fold of `Map.set` over the indexed nodes of the
subtree in depth-first preorder. -/
theorem indexSearchNode_eq : ∀ (n : SceneNode) (m : List (ℕ × SceneNode)),
    indexSearchNode m n =
      ((dfsNode n).filterMap
        (fun x => (parseFrameIndex x.name).map (fun k => (k, x)))).foldl
        (fun acc p => mapSet acc p.1 p.2) m
  | .text i nm f c, m => by
      simp only [indexSearchNode, dfsNode, List.filterMap_cons, List.filterMap_nil]
      cases hpi : parseFrameIndex (SceneNode.text i nm f c).name with
      | none => simp [indexStep, hpi]
      | some k => simp [indexStep, hpi]
  | .frame i nm cs, m => by
      simp only [indexSearchNode, dfsNode, List.filterMap_cons]
      rw [findIndexedFramesAux_eq cs]
      cases hpi : parseFrameIndex (SceneNode.frame i nm cs).name with
      | none => simp [indexStep, hpi]
      | some k => simp [indexStep, hpi, List.foldl_cons]

/-- The `findIndexedFrames` loop is the fold of `Map.set` over the indexed
nodes of the forest in depth-first preorder. -/
theorem findIndexedFramesAux_eq : ∀ (ns : List SceneNode) (m : List (ℕ × SceneNode)),
    findIndexedFramesAux m ns =
      ((dfsForest ns).filterMap
        (fun x => (parseFrameIndex x.name).map (fun k => (k, x)))).foldl
        (fun acc p => mapSet acc p.1 p.2) m
  | [], m => rfl
  | n :: rest, m => by
      simp only [findIndexedFramesAux, dfsForest, List.filterMap_append, List.foldl_append]
      rw [findIndexedFramesAux_eq rest, indexSearchNode_eq n]

end

/-- C10: when several nodes in scope carry the same `@[N]` ordinal,
`findIndexedFrames` maps `N` to the node encountered last in the depth-first
traversal of the scope — `Map.get` returns the value of the last `Map.set` —
so at most one frame per ordinal receives data and the choice is
deterministic in traversal order.  In the concrete duplicate scene, ordinal 0
resolves to node 3, the last of the three `@[0]` nodes in preorder. -/
theorem c10_duplicate_ordinal_last_dfs_wins :
    (∀ (nodes : List SceneNode) (k : ℕ),
      mapGet (findIndexedFrames nodes) k =
        (((indexedInTraversalOrder nodes).filter (·.1 == k)).getLast?).map (·.2)) ∧
    (mapGet (findIndexedFrames
        [.frame 1 "A @[0]" [.frame 2 "B @[0]" []], .frame 3 "C @[0]" []]) 0).map
      SceneNode.nodeId = some 3 := by
  constructor
  · intro nodes k
    rw [findIndexedFrames, findIndexedFramesAux_eq, mapGet_foldl_set]
    show _ = ((((indexedInTraversalOrder nodes).filter (·.1 == k)).getLast?).map (·.2))
    rw [indexedInTraversalOrder]
    cases ((dfsForest nodes).filterMap
        (fun x => (parseFrameIndex x.name).map (fun k => (k, x)))).filter (·.1 == k) |>.getLast? with
    | none => rfl
    | some x => rfl
  · decide

/-- A string append whose left part is nonempty is nonempty. -/
theorem str_append_ne_empty (s t : String) (h : s ≠ "") : s ++ t ≠ "" := by
  intro hc
  apply h
  have hlen := congrArg String.length hc
  rw [String.length_append] at hlen
  have h0 : ("" : String).length = 0 := rfl
  have hs : s.length = 0 := by omega
  cases s with
  | mk data =>
      cases data with
      | nil => rfl
      | cons c cs => simp [String.length] at hs

/-- C7: `fetchBusesDirectAPI` never throws past its boundary: a non-2xx
response, a timeout, and a malformed payload (a rejected `.json()`) each
yield `success:false`, an empty item list, `totalFound` 0, and exactly one
descriptive (nonempty) error message; and every unsuccessful result, whatever
the outcome, has that failure shape. -/
theorem c7_direct_api_never_throws :
    (∀ (params : BusSearchParams) (status : ℕ) (statusText : String)
        (body : Except JSError JValue),
      ¬ (200 ≤ status ∧ status < 300) →
      fetchBusesDirectAPI params (.response status statusText body) =
        { success := false, items := [], totalFound := .num 0,
          source := "direct-api",
          errors := ["HTTP " ++ toString status ++ ": " ++ statusText] }) ∧
    (∀ params : BusSearchParams,
      fetchBusesDirectAPI params .abortTimeout =
        { success := false, items := [], totalFound := .num 0,
          source := "direct-api", errors := ["Request timed out"] }) ∧
    (∀ (params : BusSearchParams) (e : JSError),
      (e.name == "AbortError") = false → e.message ≠ "" →
      fetchBusesDirectAPI params (.response 200 "OK" (.error e)) =
        { success := false, items := [], totalFound := .num 0,
          source := "direct-api", errors := [e.message] }) ∧
    (∀ (params : BusSearchParams) (outcome : FetchOutcome),
      (fetchBusesDirectAPI params outcome).success = false →
      ∃ m, fetchBusesDirectAPI params outcome =
        { success := false, items := [], totalFound := .num 0,
          source := "direct-api", errors := [m] } ∧ m ≠ "") := by
  refine ⟨?_, ?_, ?_, ?_⟩
  · intro params status statusText body h
    have hb : (decide (200 ≤ status) && decide (status < 300)) = false := by
      simp only [Bool.and_eq_false_iff, decide_eq_false_iff_not]
      omega
    have hne : ("HTTP " ++ toString status ++ ": " ++ statusText) ≠ "" :=
      str_append_ne_empty _ _ (str_append_ne_empty _ _
        (str_append_ne_empty _ _ (by decide)))
    simp [fetchBusesDirectAPI, fetchTry, hb, hne]
  · intro params
    rfl
  · intro params e h1 h2
    have h1x : e.name ≠ "AbortError" := by simpa using h1
    have hft : fetchTry (.response 200 "OK" (.error e)) = .error e := rfl
    simp [fetchBusesDirectAPI, hft, h1x, h2]
  · intro params outcome hfail
    cases hft : fetchTry outcome with
    | ok v =>
        obtain ⟨items, tc⟩ := v
        simp [fetchBusesDirectAPI, hft] at hfail
    | error e =>
        simp only [fetchBusesDirectAPI, hft]
        by_cases h1 : (e.name == "AbortError") = true
        · exact ⟨"Request timed out", by simp [h1], by decide⟩
        · simp only [Bool.not_eq_true] at h1
          by_cases h2 : e.message = ""
          · refine ⟨"Unknown error", ?_, by decide⟩
            simp [h1, h2]
          · refine ⟨e.message, ?_, h2⟩
            have : (e.message != "") = true := by simpa using h2
            simp [h1, this]

/-- C7 witness: a concrete 404 response produces the failure record with the
`HTTP 404: Not Found` message. -/
theorem c7_direct_api_never_throws_witness :
    fetchBusesDirectAPI ⟨some 122, some 71756, "23-Jan-2026", none, none⟩
      (.response 404 "Not Found" (.ok (.obj []))) =
      { success := false, items := [], totalFound := .num 0,
        source := "direct-api", errors := ["HTTP 404: Not Found"] } :=
  c7_direct_api_never_throws.1 ⟨some 122, some 71756, "23-Jan-2026", none, none⟩
    404 "Not Found" (.ok (.obj [])) (by omega)

/-- `Except` bind on a success value. -/
theorem ok_bind {ε α β : Type} (a : α) (f : α → Except ε β) :
    (Except.ok a : Except ε α) >>= f = f a := rfl

/-- `Except` bind on an error value. -/
theorem error_bind {ε α β : Type} (e : ε) (f : α → Except ε β) :
    (Except.error e : Except ε α) >>= f = Except.error e := rfl

/-- The pricing constants of `transformBusData` on a two-element numeric fare
list: `price` is the first element, `originalPrice` the second, and the
discount percentage is rounded under the `originalPrice > price` guard. -/
theorem busPricing_fareList2 (p o : ℚ) (ho : o ≠ 0) :
    busPricing (.obj [("fareList", .arr [.num p, .num o])]) =
      .ok ⟨.num p, .num o,
        if p < o then some (jsRound ((1 - p / o) * 100)) else some 0⟩ := by
  simp [busPricing, ok_bind, error_bind, JValue.getE, JValue.jsOr, JValue.truthy,
    JValue.indexT, JValue.typeOf, JValue.jsGT, JValue.jsToNumber, ho]
  rfl

set_option maxHeartbeats 2000000 in
/-- C8: in the normalizer, `price` is the first fare-list element (or the
explicit `fare` field), `originalPrice` is the second fare-list element (and
equals `price` when that element is absent), and the discount label renders
`round((1 − price/originalPrice)·100)` as `"N% OFF"` exactly when that
rounded percentage is positive (for positive fares): price 788 with original
831 yields `"5% OFF"`, and equal prices yield no label. -/
theorem c8_fare_price_discount :
    (∀ p o : ℚ, 0 < o →
      (transformBusData (.obj [("fareList", .arr [.num p, .num o])])).map
        (fun r => (r.price, r.originalPrice, r.discount, r.priceFormatted,
          r.originalPriceFormatted)) =
        .ok (.num p, .num o,
          .str (if 0 < jsRound ((1 - p / o) * 100) then
            toString (jsRound ((1 - p / o) * 100)) ++ "% OFF" else ""),
          .str ("₹" ++ toLocaleStringEnIN p),
          .str (if p < o then "₹" ++ toLocaleStringEnIN o else ""))) ∧
    (∀ p : ℚ, (transformBusData (.obj [("fareList", .arr [.num p])])).map
        (fun r => (r.price, r.originalPrice)) = .ok (.num p, .num p)) ∧
    (∀ f : ℚ, (transformBusData (.obj [("fare", .num f)])).map (·.price) =
        .ok (.num f)) ∧
    (transformBusData (.obj [("fareList", .arr [.num 788, .num 831])])).map
      (fun r => (r.price, r.originalPrice, r.discount, r.priceFormatted,
        r.originalPriceFormatted)) =
      .ok (.num 788, .num 831, .str "5% OFF", .str "₹788", .str "₹831") ∧
    (transformBusData (.obj [("fareList", .arr [.num 788, .num 788])])).map
      (fun r => (r.price, r.originalPrice, r.discount, r.priceFormatted,
        r.originalPriceFormatted)) =
      .ok (.num 788, .num 788, .str "", .str "₹788", .str "") := by
  have hA : ∀ p o : ℚ, 0 < o →
      (transformBusData (.obj [("fareList", .arr [.num p, .num o])])).map
        (fun r => (r.price, r.originalPrice, r.discount, r.priceFormatted,
          r.originalPriceFormatted)) =
        .ok (.num p, .num o,
          .str (if 0 < jsRound ((1 - p / o) * 100) then
            toString (jsRound ((1 - p / o) * 100)) ++ "% OFF" else ""),
          .str ("₹" ++ toLocaleStringEnIN p),
          .str (if p < o then "₹" ++ toLocaleStringEnIN o else "")) := by
    intro p o ho
    have ho0 : o ≠ 0 := ne_of_gt ho
    have hbp := busPricing_fareList2 p o ho0
    by_cases hlt : p < o
    · simp [transformBusData, ok_bind, error_bind, hbp, hlt, JValue.getE, JValue.jsOr,
        JValue.truthy, JValue.jsGT, JValue.jsToNumber, JValue.jsToLocaleStringEnIN,
        parseDateTime, extractPointsSlice, extractAmenities, jsSlice,
        List.mapM, List.mapM.loop, Except.map]
    · push_neg at hlt
      have hj : jsRound ((1 - p / o) * 100) ≤ 0 := by
        have h1 : (1 - p / o) ≤ 0 := by
          have : (1 : ℚ) ≤ p / o := (one_le_div ho).mpr hlt
          linarith
        have h2 : (1 - p / o) * 100 + 1 / 2 ≤ 1 / 2 := by nlinarith
        calc jsRound ((1 - p / o) * 100) = ⌊(1 - p / o) * 100 + 1 / 2⌋ := rfl
          _ ≤ ⌊(1 : ℚ) / 2⌋ := Int.floor_le_floor h2
          _ = 0 := by norm_num
      have hnlt : ¬ (p < o) := not_lt.mpr hlt
      simp [transformBusData, ok_bind, error_bind, hbp, hnlt, JValue.getE, JValue.jsOr,
        JValue.truthy, JValue.jsGT, JValue.jsToNumber, JValue.jsToLocaleStringEnIN,
        parseDateTime, extractPointsSlice, extractAmenities, jsSlice,
        List.mapM, List.mapM.loop, Except.map, not_lt.mpr hj]
  refine ⟨hA, ?_, ?_, ?_, ?_⟩
  · intro p
    by_cases hp : p = 0
    · subst hp
      rfl
    · have hbp : busPricing (.obj [("fareList", .arr [.num p])]) =
          .ok ⟨.num p, .num p, some 0⟩ := by
        simp [busPricing, ok_bind, error_bind, JValue.getE, JValue.jsOr, JValue.truthy,
          JValue.indexT, JValue.typeOf, JValue.jsGT, JValue.jsToNumber, hp]
        try rfl
      simp [transformBusData, ok_bind, error_bind, hbp, JValue.getE, JValue.jsOr,
        JValue.truthy, JValue.jsGT, JValue.jsToNumber, JValue.jsToLocaleStringEnIN,
        parseDateTime, extractPointsSlice, extractAmenities, jsSlice,
        List.mapM, List.mapM.loop, Except.map]
  · intro f
    by_cases hf : f = 0
    · subst hf
      rfl
    · have hbp : busPricing (.obj [("fare", .num f)]) =
          .ok ⟨.num f, .num f, some 0⟩ := by
        simp [busPricing, ok_bind, error_bind, JValue.getE, JValue.jsOr, JValue.truthy,
          JValue.indexT, JValue.typeOf, JValue.getOpt, JValue.jsGT, JValue.jsToNumber, hf]
        try rfl
      simp [transformBusData, ok_bind, error_bind, hbp, JValue.getE, JValue.jsOr,
        JValue.truthy, JValue.jsGT, JValue.jsToNumber, JValue.jsToLocaleStringEnIN,
        parseDateTime, extractPointsSlice, extractAmenities, jsSlice,
        List.mapM, List.mapM.loop, Except.map]
  · have h5 : jsRound ((1 - (788 : ℚ) / 831) * 100) = 5 := by
      norm_num [jsRound]
    have hlt : ((788 : ℚ) < 831) := by norm_num
    rw [hA 788 831 (by norm_num)]
    simp [h5, hlt]
    exact ⟨by decide, by decide, by decide⟩
  · have h0 : jsRound ((1 - (788 : ℚ) / 788) * 100) = 0 := by
      norm_num [jsRound]
    rw [hA 788 788 (by norm_num)]
    simp [h0]
    refine ⟨?_, by decide⟩
    intro hcon
    norm_num [jsRound] at hcon

/-- C8 witness: the universal discount statement instantiated at the
788 / 831 fare pair. -/
theorem c8_fare_price_discount_witness :
    (transformBusData (.obj [("fareList", .arr [.num 788, .num 831])])).map
      (fun r => (r.price, r.originalPrice, r.discount, r.priceFormatted,
        r.originalPriceFormatted)) =
      .ok (.num 788, .num 831,
        .str (if 0 < jsRound ((1 - (788 : ℚ) / 831) * 100) then
          toString (jsRound ((1 - (788 : ℚ) / 831) * 100)) ++ "% OFF" else ""),
        .str ("₹" ++ toLocaleStringEnIN 788),
        .str (if (788 : ℚ) < 831 then "₹" ++ toLocaleStringEnIN 831 else "")) :=
  c8_fare_price_discount.1 788 831 (by norm_num)

/-- Under auto mode on a parseable redbus URL, `scrapeWebsite` reduces to the
Direct-API phase: a successful non-empty Direct-API result is returned
directly, otherwise the browser phase (or, with fallback disabled, a failure
record) follows, carrying the Direct-API errors forward. -/
theorem scrapeWebsite_auto_redbus
    (url : String) (sp : BusSearchParams) (opts : ScrapeOptions)
    (dOut : FetchOutcome) (b : BrowserOracle)
    (hmode : opts.extractionMode = some ExtractionMode.auto)
    (hred : JValue.strIncludes (jsToLower url) "redbus." = true)
    (hsp : parseRedBusUrl url = some sp) :
    scrapeWebsite url opts dOut b =
      (let maxResults := opts.maxResults.getD 10
       let directResult := fetchBusesDirectAPI
         { sp with limit := some (if maxResults != 0 then (maxResults : ℚ) else 20) } dOut
       if directResult.success && !directResult.items.isEmpty then
         { success := true, url := url,
           results := directResult.items.mapIdx (fun i item =>
             mkItemResult i (busResultToJValue item)),
           errors := directResult.errors,
           extractionMode := some .direct,
           dataLayerItems := some (directResult.items.map busResultToJValue),
           totalItemsFound := some directResult.totalFound,
           interceptedUrl := none }
       else if opts.fallbackOnError != some false then
         browserExtract url opts b directResult.errors
       else
         { success := false, url := url, results := [],
           errors := directResult.errors,
           extractionMode := some .direct,
           dataLayerItems := none, totalItemsFound := none, interceptedUrl := none }) := by
  unfold scrapeWebsite
  dsimp only
  rw [hmode, hred, hsp]
  rfl

/-- Under auto mode on a redbus URL with navigation succeeding, the browser
phase resolves to XHR interception with injection fallback; if either
intercept yields items the selector branch is returned (with the intercepted
items in `dataLayerItems`), otherwise the dataLayer branch is terminal. -/
theorem browserExtract_auto_redbus
    (url : String) (opts : ScrapeOptions) (b : BrowserOracle) (accErrors : List String)
    (hmode : opts.extractionMode = some ExtractionMode.auto)
    (hred : JValue.strIncludes (jsToLower url) "redbus." = true)
    (hgoto : b.gotoError = none) :
    browserExtract url opts b accErrors =
      (let maxResults := opts.maxResults.getD 10
       let x2 := if !b.xhr.success || b.xhr.items.isEmpty then b.injection else b.xhr
       if !x2.success || x2.items.isEmpty then
         { success := true, url := url,
           results := b.dataLayer.items.mapIdx (fun i item => mkItemResult i item),
           errors := if !b.dataLayer.success then accErrors ++ b.dataLayer.errors
             else accErrors,
           dataLayerItems := some b.dataLayer.items,
           totalItemsFound := some b.dataLayer.totalFound,
           extractionMode := some ExtractionMode.dataLayer, interceptedUrl := none }
       else
         { success := true, url := url,
           results := b.selectorResults,
           errors := (accErrors ++ x2.errors) ++ b.selectorResults.filterMap (fun r =>
             if !r.found then
               r.error.bind (fun e => if e != "" then some (r.id ++ ": " ++ e) else none)
             else none),
           dataLayerItems := some (if maxResults != 0 &&
               decide (maxResults < x2.items.length) then
             x2.items.take maxResults else x2.items),
           totalItemsFound := some x2.totalFound,
           extractionMode := some ExtractionMode.xhr,
           interceptedUrl := x2.interceptedUrl }) := by
  unfold browserExtract
  rw [hgoto]
  dsimp only
  rw [hmode]
  simp only [detectPreset, hred]
  by_cases hc : (!(if !b.xhr.success || b.xhr.items.isEmpty then b.injection else b.xhr).success
      || (if !b.xhr.success || b.xhr.items.isEmpty then b.injection else b.xhr).items.isEmpty) = true
  · simp only [hc]
    rfl
  · simp only [Bool.not_eq_true] at hc
    simp only [hc]
    rfl

/-- C1 (amended): in auto mode on a parseable redbus URL with fallback
enabled and navigation succeeding, the strategy chain is Direct-API first —
a successful non-empty Direct-API run is returned as-is with mode `direct`,
independent of the browser — and on Direct-API failure the browser phase
runs with the Direct-API error list carried into every outcome's `errors`
(not only when every strategy fails).  There, XHR interception falls back to
injection; if either intercept yields items the response has mode `xhr` but
its `results` come from the selector pass (the intercepted items are
returned in `dataLayerItems`) and its errors are the Direct-API, intercept
and selector errors concatenated; if both intercepts fail, dataLayer
extraction is terminal — the selector stage never runs after it — with
`success := true` even when the dataLayer extraction itself failed, and
errors equal to the Direct-API errors followed by the dataLayer errors. -/
theorem c1_auto_chain_amended
    (url : String) (sp : BusSearchParams) (opts : ScrapeOptions)
    (dOut : FetchOutcome) (b : BrowserOracle)
    (hmode : opts.extractionMode = some ExtractionMode.auto)
    (hred : JValue.strIncludes (jsToLower url) "redbus." = true)
    (hsp : parseRedBusUrl url = some sp)
    (hfb : opts.fallbackOnError ≠ some false)
    (hgoto : b.gotoError = none) :
    (let R := fetchBusesDirectAPI
       { sp with limit := some (if opts.maxResults.getD 10 != 0 then
           ((opts.maxResults.getD 10 : ℕ) : ℚ) else 20) } dOut
     (R.success = true → R.items ≠ [] →
       ∀ b2 : BrowserOracle, scrapeWebsite url opts dOut b2 =
         { success := true, url := url,
           results := R.items.mapIdx (fun i item =>
             mkItemResult i (busResultToJValue item)),
           errors := R.errors,
           dataLayerItems := some (R.items.map busResultToJValue),
           totalItemsFound := some R.totalFound,
           extractionMode := some ExtractionMode.direct, interceptedUrl := none }) ∧
     (¬ (R.success = true ∧ R.items ≠ []) →
       (∃ tail, (scrapeWebsite url opts dOut b).errors = R.errors ++ tail) ∧
       (let x2 := if !b.xhr.success || b.xhr.items.isEmpty then b.injection else b.xhr
        (x2.success = true → x2.items ≠ [] →
          scrapeWebsite url opts dOut b =
            { success := true, url := url,
              results := b.selectorResults,
              errors := (R.errors ++ x2.errors) ++ (b.selectorResults.filterMap (fun r =>
                if !r.found then
                  r.error.bind (fun e => if e != "" then some (r.id ++ ": " ++ e) else none)
                else none)),
              dataLayerItems := some (if opts.maxResults.getD 10 != 0 &&
                  decide (opts.maxResults.getD 10 < x2.items.length) then
                x2.items.take (opts.maxResults.getD 10) else x2.items),
              totalItemsFound := some x2.totalFound,
              extractionMode := some ExtractionMode.xhr,
              interceptedUrl := x2.interceptedUrl }) ∧
        (¬ (x2.success = true ∧ x2.items ≠ []) →
          (scrapeWebsite url opts dOut b =
            { success := true, url := url,
              results := b.dataLayer.items.mapIdx (fun i item => mkItemResult i item),
              errors := R.errors ++
                (if b.dataLayer.success then [] else b.dataLayer.errors),
              dataLayerItems := some b.dataLayer.items,
              totalItemsFound := some b.dataLayer.totalFound,
              extractionMode := some ExtractionMode.dataLayer,
              interceptedUrl := none }) ∧
          ∀ sel2, scrapeWebsite url opts dOut { b with selectorResults := sel2 } =
            scrapeWebsite url opts dOut b)))) := by
  dsimp only
  constructor
  · intro hs hne b2
    rw [scrapeWebsite_auto_redbus url sp opts dOut b2 hmode hred hsp]
    dsimp only
    have hie : (fetchBusesDirectAPI
       { sp with limit := some (if opts.maxResults.getD 10 != 0 then
           ((opts.maxResults.getD 10 : ℕ) : ℚ) else 20) } dOut).items.isEmpty = false := by
      simpa [List.isEmpty_iff] using hne
    have hcond : ((fetchBusesDirectAPI
       { sp with limit := some (if opts.maxResults.getD 10 != 0 then
           ((opts.maxResults.getD 10 : ℕ) : ℚ) else 20) } dOut).success
        && !(fetchBusesDirectAPI
       { sp with limit := some (if opts.maxResults.getD 10 != 0 then
           ((opts.maxResults.getD 10 : ℕ) : ℚ) else 20) } dOut).items.isEmpty) = true := by
      rw [hs, hie]
      rfl
    rw [if_pos hcond]
  · intro hfail
    set R := fetchBusesDirectAPI
      { sp with limit := some (if opts.maxResults.getD 10 != 0 then
          ((opts.maxResults.getD 10 : ℕ) : ℚ) else 20) } dOut with hR
    have hbfalse : (R.success && !R.items.isEmpty) = false := by
      rcases not_and_or.mp hfail with h | h
      · simp only [Bool.not_eq_true] at h
        simp [h]
      · push_neg at h
        simp [h]
    have hfb2 : (opts.fallbackOnError != some false) = true := by
      simpa [bne_iff_ne] using hfb
    have hmain : ∀ b2 : BrowserOracle,
        scrapeWebsite url opts dOut b2 = browserExtract url opts b2 R.errors := by
      intro b2
      rw [scrapeWebsite_auto_redbus url sp opts dOut b2 hmode hred hsp]
      dsimp only
      rw [← hR]
      rw [if_neg (by rw [hbfalse]; simp), if_pos hfb2]
    refine ⟨?_, ?_, ?_⟩
    · rw [hmain b, browserExtract_auto_redbus url opts b R.errors hmode hred hgoto]
      dsimp only
      by_cases hc0 : (!(if !b.xhr.success || b.xhr.items.isEmpty then b.injection
            else b.xhr).success
          || (if !b.xhr.success || b.xhr.items.isEmpty then b.injection
            else b.xhr).items.isEmpty) = true
      · rw [if_pos hc0]
        by_cases hdl : b.dataLayer.success = true
        · refine ⟨[], ?_⟩
          dsimp only
          rw [hdl]
          simp
        · simp only [Bool.not_eq_true] at hdl
          refine ⟨b.dataLayer.errors, ?_⟩
          dsimp only
          rw [hdl]
          simp
      · rw [if_neg hc0]
        refine ⟨(if !b.xhr.success || b.xhr.items.isEmpty then b.injection
            else b.xhr).errors ++
            b.selectorResults.filterMap (fun r =>
              if !r.found then
                r.error.bind (fun e => if e != "" then some (r.id ++ ": " ++ e) else none)
              else none), ?_⟩
        exact List.append_assoc _ _ _
    · intro hx2s hx2ne
      have hie2 : (if !b.xhr.success || b.xhr.items.isEmpty then b.injection
          else b.xhr).items.isEmpty = false := by
        simpa [List.isEmpty_iff] using hx2ne
      have hcond2 : (!(if !b.xhr.success || b.xhr.items.isEmpty then b.injection
            else b.xhr).success
          || (if !b.xhr.success || b.xhr.items.isEmpty then b.injection
            else b.xhr).items.isEmpty) = false := by
        rw [hx2s, hie2]
        rfl
      rw [hmain b, browserExtract_auto_redbus url opts b R.errors hmode hred hgoto]
      dsimp only
      rw [if_neg (by rw [hcond2]; simp)]
    · intro hx2f
      have hc : (!(if !b.xhr.success || b.xhr.items.isEmpty then b.injection
            else b.xhr).success
          || (if !b.xhr.success || b.xhr.items.isEmpty then b.injection
            else b.xhr).items.isEmpty) = true := by
        rcases not_and_or.mp hx2f with h | h
        · simp only [Bool.not_eq_true] at h
          simp [h]
        · push_neg at h
          simp [h]
      constructor
      · rw [hmain b, browserExtract_auto_redbus url opts b R.errors hmode hred hgoto]
        dsimp only
        rw [if_pos hc]
        by_cases hdl : b.dataLayer.success = true
        · rw [hdl]
          simp
        · simp only [Bool.not_eq_true] at hdl
          rw [hdl]
          simp
      · intro sel2
        rw [hmain { b with selectorResults := sel2 }, hmain b,
            browserExtract_auto_redbus url opts { b with selectorResults := sel2 } R.errors
              hmode hred hgoto,
            browserExtract_auto_redbus url opts b R.errors hmode hred hgoto]
        dsimp only
        rw [if_pos hc]
        rw [if_pos hc]

/-- C1 witness: on the concrete redbus search URL in auto mode with the
Direct-API fetch rejecting and every browser strategy failing, the amended
chain theorem applies and yields the terminal dataLayer response — success
true, mode `dataLayer`, and the Direct-API error followed by the dataLayer
error. -/
theorem c1_auto_chain_amended_witness :
    autoOpts.extractionMode = some ExtractionMode.auto ∧
    JValue.strIncludes (jsToLower redBusSearchUrl) "redbus." = true ∧
    parseRedBusUrl redBusSearchUrl = some redBusSearchParams ∧
    autoOpts.fallbackOnError ≠ some false ∧
    browserAllFail.gotoError = none ∧
    scrapeWebsite redBusSearchUrl autoOpts directNetError browserAllFail =
      { success := true, url := redBusSearchUrl, results := [],
        errors := ["boom", "dl-err"], dataLayerItems := some [],
        totalItemsFound := some (.num 0),
        extractionMode := some ExtractionMode.dataLayer, interceptedUrl := none } := by
  refine ⟨rfl, rfl, rfl, by decide, rfl, ?_⟩
  exact (((c1_auto_chain_amended redBusSearchUrl redBusSearchParams autoOpts directNetError
      browserAllFail rfl rfl rfl (by decide) rfl).2 (fun h => h.2 rfl)).2.2
      (fun h => Bool.noConfusion h.1)).1

/-- C1 counterexample: with the Direct-API fetch rejecting with `boom` and
XHR interception then succeeding with one item, the returned response has
`success := true` and mode `xhr` yet still carries the Direct-API error
`boom` — refuting that a Direct-API failure is surfaced only when every
strategy fails; and when every strategy does fail, the error list is the
Direct-API error followed by the dataLayer error, not the last strategy's
error list alone. -/
theorem c1_direct_error_surfaced_counterexample :
    ((scrapeWebsite redBusSearchUrl autoOpts directNetError browserXhrWins).success = true ∧
     (scrapeWebsite redBusSearchUrl autoOpts directNetError browserXhrWins).extractionMode =
       some ExtractionMode.xhr ∧
     (scrapeWebsite redBusSearchUrl autoOpts directNetError browserXhrWins).errors = ["boom"] ∧
     (scrapeWebsite redBusSearchUrl autoOpts directNetError browserXhrWins).dataLayerItems =
       some [.obj [("x", .num 1)]]) ∧
    ((scrapeWebsite redBusSearchUrl autoOpts directNetError browserAllFail).errors =
       ["boom", "dl-err"] ∧
     (scrapeWebsite redBusSearchUrl autoOpts directNetError browserAllFail).success = true) :=
  ⟨⟨rfl, rfl, rfl, rfl⟩, rfl, rfl⟩
